import Mathlib

/-!
Verification development for the SEC-filings analysis engine
(`financial_analyzer.py` and `risk_assessment.py`).

Modelling conventions (shallow embedding):
* Python floats are modelled as exact rationals (`ℚ`).  No claim under
  consideration depends on binary floating-point rounding.
* A Python value that may be `None` is modelled as `Option ℚ` (`none` = `None`).
* Python dicts are modelled as association lists in insertion order;
  `dict.get`/`in`/`items()` become `List.lookup`/membership/iteration.
* A `try`/`except` body is modelled with `Except Unit`: an operation on a
  `None` operand raises (`.error ()`), the handler logs and `continue`s, so a
  period keeps the entries recorded before the exception and drops the rest.
* `np.mean []` evaluates to NaN; "not a number" is modelled as `none`.
* `np.polyfit`/`np.corrcoef` (floating-point linear algebra) are not modelled;
  no claim mentions the `slope`/`correlation` fields.
-/

/-- A Python numeric-or-`None` value. -/
abbrev PyVal := Option ℚ

/-- One statement period: line-item name → nullable numeric value
(insertion order, unique keys as in a Python dict). -/
abbrev PeriodData := List (String × PyVal)

/-- A statement: period label → period data, in insertion order. -/
abbrev Statement := List (String × PeriodData)

/-- The normalized financial data consumed by the analyzer:
`financial_data.get('income_statement', {})` / `...('balance_sheet', {})`. -/
structure FinancialData where
  income_statement : Statement
  balance_sheet : Statement

/-- `data.get(key, 0)`: absent key defaults to `0`; a key that is present
with value `None` yields `None`. -/
def pyGet (d : PeriodData) (k : String) : PyVal :=
  (d.lookup k).getD (some 0)

/-- Python subtraction inside a `try` block: raises `TypeError` when an
operand is `None`. -/
def pySub : PyVal → PyVal → Except Unit ℚ
  | some a, some b => Except.ok (a - b)
  | _, _ => Except.error ()

/-- Python addition inside a `try` block: raises when an operand is `None`. -/
def pyAdd : PyVal → PyVal → Except Unit ℚ
  | some a, some b => Except.ok (a + b)
  | _, _ => Except.error ()

/-- The recurring statement shape
`if den != 0: ratios[name] = num / den else: ratios[name] = None`.
`None != 0` is `True` in Python, so a `None` denominator proceeds to the
division and raises; a `None` numerator with a nonzero denominator raises. -/
def ratioStep (name : String) (num den : PyVal) : Except Unit (String × PyVal) :=
  if den = some 0 then Except.ok (name, none)
  else
    match num, den with
    | some n, some d => Except.ok (name, some (n / d))
    | _, _ => Except.error ()

/-- The `try` body of `calculate_liquidity_ratios` for one balance-sheet
period.  An exception keeps the entries recorded so far and skips the rest
(`except ...: continue`). -/
def liquidityPeriod (period : String) (data : PeriodData) : List (String × PyVal) :=
  let ca := pyGet data ("total_current_assets")
  let cl := pyGet data ("total_current_liabilities")
  let cash := pyGet data ("cash_and_cash_equivalents")
  let ms := pyGet data ("marketable_securities")
  let inv := pyGet data ("inventory")
  match ratioStep (("current_ratio_") ++ period) ca cl with
  | Except.error _ => []
  | Except.ok e1 =>
    match pySub ca inv with
    | Except.error _ => [e1]
    | Except.ok quick_assets =>
      match ratioStep (("quick_ratio_") ++ period) (some quick_assets) cl with
      | Except.error _ => [e1]
      | Except.ok e2 =>
        match pyAdd cash ms with
        | Except.error _ => [e1, e2]
        | Except.ok cash_and_equivalents =>
          match ratioStep (("cash_ratio_") ++ period) (some cash_and_equivalents) cl with
          | Except.error _ => [e1, e2]
          | Except.ok e3 => [e1, e2, e3]

/-- `calculate_liquidity_ratios`: iterate over balance-sheet periods,
accumulating the per-period entries of the single `ratios` dict. -/
def calculate_liquidity_ratios (balance_sheet : Statement) : List (String × PyVal) :=
  balance_sheet.flatMap (fun pd => liquidityPeriod pd.1 pd.2)

/-- `balance_sheet and period in balance_sheet` followed by
`balance_sheet[period]`: `None` and the empty dict are falsy, and lookup in
an empty dict fails anyway. -/
def bsLookup (bs : Option Statement) (period : String) : Option PeriodData :=
  bs.bind (fun l => l.lookup period)

/-- The `try` body of `calculate_profitability_ratios` for one
income-statement period.  Note that the default argument of
`data.get('gross_profit', revenue - cost_of_goods_sold)` is evaluated
eagerly, so a `None` revenue or COGS raises before anything is recorded. -/
def profitabilityPeriod (period : String) (data : PeriodData)
    (balance_sheet : Option Statement) : List (String × PyVal) :=
  let revenue := pyGet data ("revenue")
  let cogs := pyGet data ("cost_of_goods_sold")
  match pySub revenue cogs with
  | Except.error _ => []
  | Except.ok gpDefault =>
    let gross_profit : PyVal := (data.lookup ("gross_profit")).getD (some gpDefault)
    let operating_income := pyGet data ("operating_income")
    let net_income := pyGet data ("net_income")
    match ratioStep (("gross_margin_") ++ period) gross_profit revenue with
    | Except.error _ => []
    | Except.ok e1 =>
      match ratioStep (("operating_margin_") ++ period) operating_income revenue with
      | Except.error _ => [e1]
      | Except.ok e2 =>
        match ratioStep (("net_margin_") ++ period) net_income revenue with
        | Except.error _ => [e1, e2]
        | Except.ok e3 =>
          match bsLookup balance_sheet period with
          | none => [e1, e2, e3]
          | some bd =>
            match ratioStep (("roa_") ++ period) net_income (pyGet bd ("total_assets")) with
            | Except.error _ => [e1, e2, e3]
            | Except.ok e4 =>
              match ratioStep (("roe_") ++ period) net_income (pyGet bd ("total_equity")) with
              | Except.error _ => [e1, e2, e3, e4]
              | Except.ok e5 => [e1, e2, e3, e4, e5]

/-- `calculate_profitability_ratios`. -/
def calculate_profitability_ratios (income_statement : Statement)
    (balance_sheet : Option Statement) : List (String × PyVal) :=
  income_statement.flatMap (fun pd => profitabilityPeriod pd.1 pd.2 balance_sheet)

/-- The `try` body of `calculate_efficiency_ratios` for one income-statement
period: all three turnover blocks are guarded by `period in balance_sheet`. -/
def efficiencyPeriod (period : String) (data : PeriodData)
    (balance_sheet : Statement) : List (String × PyVal) :=
  let revenue := pyGet data ("revenue")
  let cogs := pyGet data ("cost_of_goods_sold")
  match balance_sheet.lookup period with
  | none => []
  | some bd =>
    match ratioStep (("asset_turnover_") ++ period) revenue (pyGet bd ("total_assets")) with
    | Except.error _ => []
    | Except.ok e1 =>
      match ratioStep (("inventory_turnover_") ++ period) cogs (pyGet bd ("inventory")) with
      | Except.error _ => [e1]
      | Except.ok e2 =>
        match ratioStep (("receivables_turnover_") ++ period) revenue
            (pyGet bd ("accounts_receivable")) with
        | Except.error _ => [e1, e2]
        | Except.ok e3 => [e1, e2, e3]

/-- `calculate_efficiency_ratios`. -/
def calculate_efficiency_ratios (fd : FinancialData) : List (String × PyVal) :=
  fd.income_statement.flatMap (fun pd => efficiencyPeriod pd.1 pd.2 fd.balance_sheet)

/-- The `try` body of `calculate_leverage_ratios` for one income-statement
period: the two debt ratios are guarded by `period in balance_sheet`, the
interest-coverage block is unconditional. -/
def leveragePeriod (period : String) (data : PeriodData)
    (balance_sheet : Statement) : List (String × PyVal) :=
  match balance_sheet.lookup period with
  | none =>
    match ratioStep (("interest_coverage_") ++ period)
        (pyGet data ("operating_income")) (pyGet data ("interest_expense")) with
    | Except.error _ => []
    | Except.ok e => [e]
  | some bd =>
    match ratioStep (("debt_to_equity_") ++ period)
        (pyGet bd ("total_liabilities")) (pyGet bd ("total_equity")) with
    | Except.error _ => []
    | Except.ok e1 =>
      match ratioStep (("debt_to_assets_") ++ period)
          (pyGet bd ("total_liabilities")) (pyGet bd ("total_assets")) with
      | Except.error _ => [e1]
      | Except.ok e2 =>
        match ratioStep (("interest_coverage_") ++ period)
            (pyGet data ("operating_income")) (pyGet data ("interest_expense")) with
        | Except.error _ => [e1, e2]
        | Except.ok e3 => [e1, e2, e3]

/-- `calculate_leverage_ratios`. -/
def calculate_leverage_ratios (fd : FinancialData) : List (String × PyVal) :=
  fd.income_statement.flatMap (fun pd => leveragePeriod pd.1 pd.2 fd.balance_sheet)

/-- Result of `_analyze_trend`.  The two branches of the Python function
return dicts with different key sets; `slope` and `correlation`
(numpy floating-point linear algebra) are not modelled. -/
inductive TrendResult where
  | insufficient (direction : String) (strength : ℚ)
  | full (direction : String) (percentage_change : ℚ) (values : List ℚ)
deriving DecidableEq

/-- The `direction` entry of a trend-analysis result. -/
def TrendResult.direction : TrendResult → String
  | TrendResult.insufficient d _ => d
  | TrendResult.full d _ _ => d

/-- `_analyze_trend`. -/
def analyze_trend (values : List ℚ) : TrendResult :=
  if values.length < 2 then TrendResult.insufficient ("insufficient_data") 0
  else
    let v0 := values.headI
    let vLast := values.getLastD 0
    let pct_change : ℚ := if v0 = 0 then 0 else (vLast - v0) / |v0| * 100
    let direction :=
      if pct_change > 5 then ("strong_up")
      else if pct_change > 1 then ("moderate_up")
      else if pct_change > -1 then ("stable")
      else if pct_change > -5 then ("moderate_down")
      else ("strong_down")
    TrendResult.full direction pct_change values

/-- `time_series[key].append(v)` with `if key not in time_series:
time_series[key] = []` first: append to the existing entry, or add a new
key at the end (Python dict insertion order). -/
def tsInsert (ts : List (String × List ℚ)) (k : String) (v : ℚ) : List (String × List ℚ) :=
  if ts.any (fun kv => kv.1 == k) then
    ts.map (fun kv => if kv.1 == k then (kv.1, kv.2 ++ [v]) else kv)
  else ts ++ [(k, [v])]

/-- The nested per-statement loop of `_extract_time_series`: for each
period, for each line item, append `float(value) if value is not None
else 0.0` under the (possibly prefixed) metric key. -/
def tsFoldStatement (st : Statement) (keyf : String → String)
    (acc : List (String × List ℚ)) : List (String × List ℚ) :=
  st.foldl (fun acc pd =>
    pd.2.foldl (fun a kv => tsInsert a (keyf kv.1) (kv.2.getD 0)) acc) acc

/-- `_extract_time_series`: income-statement items keep their key,
balance-sheet items are prefixed with `balance_`. -/
def extract_time_series (fd : FinancialData) : List (String × List ℚ) :=
  tsFoldStatement fd.balance_sheet (fun k => ("balance_") ++ k)
    (tsFoldStatement fd.income_statement (fun k => k) [])

/-- `_identify_trends`: analyze every metric whose series has at least two
points. -/
def identify_trends (fd : FinancialData) : List (String × TrendResult) :=
  (extract_time_series fd).filterMap
    (fun kv => if 2 ≤ kv.2.length then some (kv.1, analyze_trend kv.2) else none)

/-- Record returned by `_calculate_metric_growth`. -/
structure GrowthInfo where
  period : String
  growth_rate : ℚ
  current_value : ℚ
  previous_value : ℚ
deriving DecidableEq

/-- `metric in statement.get(period, {})` followed by
`statement[period][metric]`: the stored value may itself be `None`. -/
def stmtValue (st : Statement) (period metric : String) : Option ℚ :=
  ((st.lookup period).bind (fun d => d.lookup metric)).bind id

/-- `_calculate_metric_growth` for the two latest periods `pLast`/`pPrev`
(`periods[-1]`/`periods[-2]`): income-statement value first, balance-sheet
value as fallback when the former is `None`; requires both present and the
previous value nonzero. -/
def calculate_metric_growth (metric pLast pPrev : String)
    (income_statement balance_sheet : Statement) : Option GrowthInfo :=
  let current_value :=
    match stmtValue income_statement pLast metric with
    | some v => some v
    | none => stmtValue balance_sheet pLast metric
  let previous_value :=
    match stmtValue income_statement pPrev metric with
    | some v => some v
    | none => stmtValue balance_sheet pPrev metric
  match current_value, previous_value with
  | some c, some p =>
    if p ≠ 0 then
      some { period := pPrev ++ (" to ") ++ pLast
             growth_rate := (c - p) / |p| * 100
             current_value := c
             previous_value := p }
    else none
  | _, _ => none

/-- Python string `<=`: lexicographic comparison by code point. -/
def charListLe : List Char → List Char → Bool
  | [], _ => true
  | _ :: _, [] => false
  | a :: as, b :: bs =>
    if a.toNat < b.toNat then true
    else if b.toNat < a.toNat then false
    else charListLe as bs

/-- Python string `<=` on `String`s. -/
def pyStrLe (a b : String) : Bool :=
  charListLe a.toList b.toList

/-- Insert into a `pyStrLe`-sorted list, keeping it sorted. -/
def insertSorted (x : String) : List String → List String
  | [] => [x]
  | y :: t => if pyStrLe x y then x :: y :: t else y :: insertSorted x t

/-- `sorted(income_statement.keys())`: the period labels arranged in
lexicographic (code-point) order, computed by insertion sort — for the
total order on strings this produces the same list as Python's `sorted`
(period keys of a dict are distinct, so stability is unobservable). -/
def pySortedKeys (st : Statement) : List String :=
  (st.map (fun pd => pd.1)).foldr insertSorted []

/-- `_calculate_growth_rates`: empty unless the income statement has at
least two periods; otherwise growth of the four fixed metrics between the
two lexicographically-latest income-statement periods. -/
def calculate_growth_rates (fd : FinancialData) : List (String × GrowthInfo) :=
  let periods := pySortedKeys fd.income_statement
  match periods.reverse with
  | pLast :: pPrev :: _ =>
    [("revenue"), ("net_income"), ("total_assets"), ("total_equity")].filterMap
      (fun m => (calculate_metric_growth m pLast pPrev
          fd.income_statement fd.balance_sheet).map (fun g => (m, g)))
  | _ => []

/-- `ratio_name in k`: Python substring containment on strings. -/
def containsSub (needle : List Char) : List Char → Bool
  | [] => needle.isPrefixOf []
  | c :: t => needle.isPrefixOf (c :: t) || containsSub needle t

/-- Substring test on `String`s (`needle in hay`). -/
def strContains (hay needle : String) : Bool :=
  containsSub needle.toList hay.toList

/-- `_get_latest_ratio`: last value among the entries whose key contains the
ratio name; `None` both when that value is null and when nothing matches. -/
def get_latest_ratio (ratios : List (String × PyVal)) (ratio_name : String) : Option ℚ :=
  match ((ratios.filter (fun kv => strContains kv.1 ratio_name)).map (fun kv => kv.2)).getLast? with
  | none => none
  | some v => v

/-- Two-decimal fixed-point rendering of a rational, modelling Python's
`f"{v:.2f}"` (the float rounding mode is approximated by rational
rounding; no claim depends on the rendered digits). -/
def fmt2 (q : ℚ) : String :=
  let n : ℤ := round (q * 100)
  let sign := if n < 0 then ("-") else ("")
  let m := n.natAbs
  sign ++ toString (m / 100) ++ (".") ++ (if m % 100 < 10 then ("0") else ("")) ++ toString (m % 100)

/-- Percent rendering `f"{v:.2%}"`. -/
def fmtPct2 (q : ℚ) : String :=
  fmt2 (q * 100) ++ ("%")

/-- The four ratio groups passed to `_assess_financial_health`
(`ratios.get('liquidity', {})`, …). -/
structure RatioSet where
  liquidity : List (String × PyVal)
  profitability : List (String × PyVal)
  efficiency : List (String × PyVal)
  leverage : List (String × PyVal)

/-- Result of `_assess_financial_health`. -/
structure HealthResult where
  score : ℚ
  level : String
  issues : List String
  max_score : ℚ
  current_score : ℚ
deriving DecidableEq

/-- One assessment block of `_assess_financial_health`: a present ratio
adds 25 to `max_score` and contributes 25 / 12.5 / 0-plus-an-issue to
`health_score` according to the good/acceptable tests. -/
def healthBlock (v? : Option ℚ) (good acceptable : ℚ → Bool) (issue : ℚ → String) :
    ℚ × ℚ × List String :=
  match v? with
  | none => (0, 0, [])
  | some v =>
    if good v then (25, 25, [])
    else if acceptable v then (25 / 2, 25, [])
    else (0, 25, [issue v])

/-- `_assess_financial_health`. -/
def assess_financial_health (r : RatioSet) : HealthResult :=
  let b1 := healthBlock (get_latest_ratio r.liquidity ("current_ratio"))
    (fun v => v ≥ 3 / 2) (fun v => v ≥ 1)
    (fun v => ("Low current ratio: ") ++ fmt2 v)
  let b2 := healthBlock (get_latest_ratio r.profitability ("net_margin"))
    (fun v => v ≥ 1 / 10) (fun v => v ≥ 1 / 20)
    (fun v => ("Low net margin: ") ++ fmtPct2 v)
  let b3 := healthBlock (get_latest_ratio r.leverage ("debt_to_equity"))
    (fun v => v ≤ 1) (fun v => v ≤ 2)
    (fun v => ("High debt-to-equity ratio: ") ++ fmt2 v)
  let b4 := healthBlock (get_latest_ratio r.efficiency ("asset_turnover"))
    (fun v => v ≥ 1 / 2) (fun v => v ≥ 1 / 4)
    (fun v => ("Low asset turnover: ") ++ fmt2 v)
  let health_score := b1.1 + b2.1 + b3.1 + b4.1
  let max_score := b1.2.1 + b2.2.1 + b3.2.1 + b4.2.1
  let issues := b1.2.2 ++ b2.2.2 ++ b3.2.2 ++ b4.2.2
  let final_score := if max_score > 0 then health_score / max_score * 100 else 0
  let health_level :=
    if final_score ≥ 80 then ("Excellent")
    else if final_score ≥ 60 then ("Good")
    else if final_score ≥ 40 then ("Fair")
    else ("Poor")
  { score := final_score, level := health_level, issues := issues
    max_score := max_score, current_score := health_score }

/-- `_assess_performance`. -/
def assess_performance (company_value industry_value : ℚ) (ratio_name : String) : String :=
  if [("current_ratio"), ("quick_ratio"), ("cash_ratio")].contains ratio_name then
    if company_value > industry_value then ("Above") else ("Below")
  else if [("gross_margin"), ("net_margin"), ("roe"), ("roa")].contains ratio_name then
    if company_value > industry_value then ("Above") else ("Below")
  else if [("debt_to_equity"), ("debt_to_assets")].contains ratio_name then
    if company_value < industry_value then ("Above") else ("Below")
  else
    if company_value > industry_value then ("Above") else ("Below")

/-- Tokens of the category regex fragments.  Every pattern in
`risk_patterns` is a concatenation of literal characters, `.*` (greedy,
`.` not matching a newline — no `re.DOTALL` here) and an optional trailing
character (`s?`); the `(?i)` prefix is absorbed by matching on lowercased
text, whose literals are already lowercase. -/
inductive CatTok where
  | lit (c : Char)
  | opt (c : Char)
  | dotStar
deriving DecidableEq

/-- Literal token run for a word. -/
def lits (s : String) : List CatTok :=
  s.toList.map CatTok.lit

/-- The choices available to a greedy `.*` (no `re.DOTALL`): drop any
number of leading characters up to but not including a newline.  Listed as
(dropped count, remaining suffix) in increasing-drop order. -/
def starChoices : List Char → List (Nat × List Char)
  | [] => [(0, [])]
  | d :: ds =>
    (0, d :: ds) ::
      (if d == ('\n') then [] else (starChoices ds).map (fun ks => (ks.1 + 1, ks.2)))

/-- Can the token list match some prefix of the text?  Pure existence —
used for boolean `re.search`-style questions, where the engine's
backtracking order is unobservable. -/
def cmatch : List CatTok → List Char → Bool
  | [], _ => true
  | CatTok.lit c :: ts, s =>
    match s with
    | [] => false
    | d :: ds => c == d && cmatch ts ds
  | CatTok.opt c :: ts, s =>
    match s with
    | [] => cmatch ts []
    | d :: ds => cmatch ts (d :: ds) || (c == d && cmatch ts ds)
  | CatTok.dotStar :: ts, s => (starChoices s).any (fun ks => cmatch ts ks.2)

/-- Match attempt at the current position with Python's backtracking order
(greedy `.*` tries the longest consumption first, greedy `c?` tries
consuming first), returning the length of the match `re.match` would
produce. -/
def gmatch : List CatTok → List Char → Option Nat
  | [], _ => some 0
  | CatTok.lit c :: ts, s =>
    match s with
    | [] => none
    | d :: ds => if c == d then (gmatch ts ds).map (fun n => n + 1) else none
  | CatTok.opt c :: ts, s =>
    match s with
    | [] => gmatch ts []
    | d :: ds =>
      if c == d then
        match gmatch ts ds with
        | some n => some (n + 1)
        | none => gmatch ts (d :: ds)
      else gmatch ts (d :: ds)
  | CatTok.dotStar :: ts, s =>
    (starChoices s).reverse.findSome? (fun ks => (gmatch ts ks.2).map (fun n => n + ks.1))

/-- `len(re.findall(pattern, text))` scan step: a successful match
advances past it (one position for an empty match), a failure advances one
position; the position past the end is also tried.  The fuel argument
(always instantiated at `length + 1`, an upper bound on the number of
steps) makes the skip-ahead recursion structural. -/
def scanFuel (p : List CatTok) : Nat → List Char → Nat
  | 0, _ => 0
  | _ + 1, [] => if (gmatch p []).isSome then 1 else 0
  | fuel + 1, c :: t =>
    match gmatch p (c :: t) with
    | none => scanFuel p fuel t
    | some 0 => 1 + scanFuel p fuel t
    | some (l + 1) => 1 + scanFuel p fuel (t.drop l)

/-- `len(re.findall(pattern, text))`. -/
def scanCount (p : List CatTok) (s : List Char) : Nat :=
  scanFuel p (s.length + 1) s

/-- A severity pattern: an optional leading literal alternation group
(only `(materially|significantly|substantially)` occurs) followed by
category-style tokens. -/
structure SevPat where
  alts : Option (List String)
  rest : List CatTok

/-- Does a severity pattern match starting exactly here? -/
def sevMatchAt (p : SevPat) (s : List Char) : Bool :=
  match p.alts with
  | none => cmatch p.rest s
  | some as =>
    as.any (fun a => a.toList.isPrefixOf s && cmatch p.rest (s.drop a.length))

/-- `re.search` for a severity pattern: a match starting at any position. -/
def sevSearch (p : SevPat) : List Char → Bool
  | [] => sevMatchAt p []
  | c :: t => sevMatchAt p (c :: t) || sevSearch p t

/-- `text.lower()` as a character list (ASCII-faithful). -/
def lowerChars (s : String) : List Char :=
  s.toList.map Char.toLower

/-- Patterns of the `market_risks` category. -/
def market_risk_patterns : List (List CatTok) :=
  [ lits ("economic") ++ [CatTok.dotStar] ++ lits ("condition") ++ [CatTok.opt ('s')]
  , lits ("market") ++ [CatTok.dotStar] ++ lits ("demand")
  , lits ("competition")
  , lits ("customer") ++ [CatTok.dotStar] ++ lits ("concentration")
  , lits ("pricing") ++ [CatTok.dotStar] ++ lits ("pressure")
  , lits ("supply") ++ [CatTok.dotStar] ++ lits ("chain")
  , lits ("commodity") ++ [CatTok.dotStar] ++ lits ("price")
  , lits ("foreign") ++ [CatTok.dotStar] ++ lits ("exchange")
  , lits ("interest") ++ [CatTok.dotStar] ++ lits ("rate") ]

/-- Patterns of the `operational_risks` category. -/
def operational_risk_patterns : List (List CatTok) :=
  [ lits ("operational") ++ [CatTok.dotStar] ++ lits ("efficiency")
  , lits ("technology") ++ [CatTok.dotStar] ++ lits ("disruption")
  , lits ("cyber") ++ [CatTok.dotStar] ++ lits ("security")
  , lits ("data") ++ [CatTok.dotStar] ++ lits ("breach")
  , lits ("system") ++ [CatTok.dotStar] ++ lits ("failure")
  , lits ("vendor") ++ [CatTok.dotStar] ++ lits ("reliance")
  , lits ("intellectual") ++ [CatTok.dotStar] ++ lits ("property")
  , lits ("talent") ++ [CatTok.dotStar] ++ lits ("acquisition")
  , lits ("workforce") ++ [CatTok.dotStar] ++ lits ("issues") ]

/-- Patterns of the `financial_risks` category. -/
def financial_risk_patterns : List (List CatTok) :=
  [ lits ("liquidity") ++ [CatTok.dotStar] ++ lits ("risk")
  , lits ("credit") ++ [CatTok.dotStar] ++ lits ("risk")
  , lits ("debt") ++ [CatTok.dotStar] ++ lits ("obligation")
  , lits ("capital") ++ [CatTok.dotStar] ++ lits ("requirement")
  , lits ("financial") ++ [CatTok.dotStar] ++ lits ("covenant")
  , lits ("rating") ++ [CatTok.dotStar] ++ lits ("agency")
  , lits ("cost") ++ [CatTok.dotStar] ++ lits ("structure")
  , lits ("cash") ++ [CatTok.dotStar] ++ lits ("flow") ++ [CatTok.dotStar] ++ lits ("risk") ]

/-- Patterns of the `regulatory_risks` category. -/
def regulatory_risk_patterns : List (List CatTok) :=
  [ lits ("regulatory") ++ [CatTok.dotStar] ++ lits ("change")
  , lits ("legal") ++ [CatTok.dotStar] ++ lits ("proceeding")
  , lits ("compliance") ++ [CatTok.dotStar] ++ lits ("cost")
  , lits ("environmental") ++ [CatTok.dotStar] ++ lits ("regulation")
  , lits ("tax") ++ [CatTok.dotStar] ++ lits ("policy")
  , lits ("trade") ++ [CatTok.dotStar] ++ lits ("policy")
  , lits ("antitrust")
  , lits ("data") ++ [CatTok.dotStar] ++ lits ("privacy") ]

/-- `self.risk_patterns`: the four fixed categories in insertion order. -/
def risk_patterns : List (String × List (List CatTok)) :=
  [ (("market_risks"), market_risk_patterns)
  , (("operational_risks"), operational_risk_patterns)
  , (("financial_risks"), financial_risk_patterns)
  , (("regulatory_risks"), regulatory_risk_patterns) ]

/-- `max(iterable, key=...)` tail: keep the current best unless a later
value is strictly greater. -/
def pyMaxGo (bk : String) (bv : ℚ) : List (String × ℚ) → String
  | [] => bk
  | (k, v) :: t => if v > bv then pyMaxGo k v t else pyMaxGo bk bv t

/-- `max(category_scores, key=category_scores.get)` over the dict in
insertion order; `none` models the `ValueError` on an empty iterable
(which the guarding `if category_scores:` prevents). -/
def pyMaxByVal : List (String × ℚ) → Option String
  | [] => none
  | (k, v) :: t => some (pyMaxGo k v t)

/-- Total `re.findall` match count of a category's patterns against the
lowercased text. -/
def categoryMatchTotal (patterns : List (List CatTok)) (text_lower : List Char) : Nat :=
  (patterns.map (fun p => scanCount p text_lower)).sum

/-- The per-category scores computed by `_classify_risk_category`:
`0.5` per `re.findall` match, summed over the category's patterns
(`score += len(matches) * 0.5`). -/
def categoryScores (text : String) : List (String × ℚ) :=
  let text_lower := lowerChars text
  risk_patterns.map
    (fun cp => (cp.1, (categoryMatchTotal cp.2 text_lower : ℚ) * (1 / 2)))

/-- `_classify_risk_category`. -/
def classify_risk_category (text : String) : String :=
  match pyMaxByVal (categoryScores text) with
  | some k => k
  | none => ("general")

/-- Patterns of the `high` severity bucket. -/
def high_severity_patterns : List SevPat :=
  [ { alts := some [("materially"), ("significantly"), ("substantially")]
    , rest := [CatTok.dotStar] ++ lits ("adverse") }
  , { alts := none, rest := lits ("could") ++ [CatTok.dotStar] ++ lits ("result")
        ++ [CatTok.dotStar] ++ lits ("in") ++ [CatTok.dotStar] ++ lits ("significant") }
  , { alts := none, rest := lits ("may") ++ [CatTok.dotStar] ++ lits ("have")
        ++ [CatTok.dotStar] ++ lits ("material") ++ [CatTok.dotStar] ++ lits ("impact") }
  , { alts := none, rest := lits ("substantial") ++ [CatTok.dotStar] ++ lits ("risk") }
  , { alts := none, rest := lits ("critical") ++ [CatTok.dotStar] ++ lits ("dependence") } ]

/-- Patterns of the `medium` severity bucket. -/
def medium_severity_patterns : List SevPat :=
  [ { alts := none, rest := lits ("could") ++ [CatTok.dotStar] ++ lits ("negatively")
        ++ [CatTok.dotStar] ++ lits ("affect") }
  , { alts := none, rest := lits ("may") ++ [CatTok.dotStar] ++ lits ("impact") }
  , { alts := none, rest := lits ("potential") ++ [CatTok.dotStar] ++ lits ("risk") }
  , { alts := none, rest := lits ("challenges") ++ [CatTok.dotStar] ++ lits ("faced") }
  , { alts := none, rest := lits ("uncertainties") ++ [CatTok.dotStar] ++ lits ("exist") } ]

/-- Patterns of the `low` severity bucket. -/
def low_severity_patterns : List SevPat :=
  [ { alts := none, rest := lits ("minor") ++ [CatTok.dotStar] ++ lits ("impact") }
  , { alts := none, rest := lits ("routine") ++ [CatTok.dotStar] ++ lits ("matter") }
  , { alts := none, rest := lits ("standard") ++ [CatTok.dotStar] ++ lits ("practice") }
  , { alts := none, rest := lits ("expected") ++ [CatTok.dotStar] ++ lits ("fluctuation") } ]

/-- `self.severity_indicators`, in insertion order high, medium, low. -/
def severity_indicators : List (String × List SevPat) :=
  [ (("high"), high_severity_patterns)
  , (("medium"), medium_severity_patterns)
  , (("low"), low_severity_patterns) ]

/-- `_assess_risk_severity_level`: the first bucket (in insertion order
high, medium, low) one of whose patterns matches; default `medium`. -/
def assess_risk_severity_level (text : String) : String :=
  let text_lower := lowerChars text
  match severity_indicators.findSome?
      (fun sp => if sp.2.any (fun p => sevSearch p text_lower) then some sp.1 else none) with
  | some s => s
  | none => ("medium")

/-- `severity_weights = {'low': 1.0, 'medium': 3.0, 'high': 5.0}`. -/
def severity_weights : List (String × ℚ) :=
  [(("low"), 1), (("medium"), 3), (("high"), 5)]

/-- `_calculate_impact_score`. -/
def calculate_impact_score (text severity : String) : ℚ :=
  let base_score := (severity_weights.lookup severity).getD 3
  let text_lower := lowerChars text
  let adjusted :=
    if [("material"), ("significant"), ("substantial")].any
        (fun w => containsSub w.toList text_lower) then base_score * (3 / 2)
    else if [("minor"), ("routine"), ("standard")].any
        (fun w => containsSub w.toList text_lower) then base_score * (7 / 10)
    else base_score
  min adjusted 5

/-- `_assess_likelihood`. -/
def assess_likelihood (text : String) : ℚ :=
  let text_lower := lowerChars text
  if [("will"), ("expected"), ("likely"), ("probable")].any
      (fun w => containsSub w.toList text_lower) then 4 / 5
  else if [("may"), ("could"), ("possible"), ("potential")].any
      (fun w => containsSub w.toList text_lower) then 1 / 2
  else if [("unlikely"), ("remote"), ("minimal")].any
      (fun w => containsSub w.toList text_lower) then 1 / 5
  else 1 / 2

/-- One risk factor after `assess_risk_severity` annotated it
(each input risk contributes `risk.get('text', '')`). -/
structure RiskScored where
  text : String
  severity : String
  impact_score : ℚ
  likelihood : ℚ
  overall_risk_score : ℚ
deriving DecidableEq

/-- The annotation loop body of `assess_risk_severity` for one risk. -/
def score_risk (text : String) : RiskScored :=
  let severity := assess_risk_severity_level text
  let impact_score := calculate_impact_score text severity
  let likelihood := assess_likelihood text
  { text := text, severity := severity, impact_score := impact_score
    likelihood := likelihood, overall_risk_score := impact_score * likelihood }

/-- `np.mean`: NaN (modelled `none`) on an empty list. -/
def pyNpMean (l : List ℚ) : Option ℚ :=
  match l with
  | [] => none
  | _ => some (l.sum / l.length)

/-- The parts of the `assess_risk_severity` result the claims are about;
`category_scores`, `risk_distribution` and `top_risks` are further
aggregates of `individual_risks` not needed here. -/
structure RiskAssessmentResult where
  individual_risks : List RiskScored
  overall_risk_score : Option ℚ

/-- `assess_risk_severity`. -/
def assess_risk_severity (risk_texts : List String) : RiskAssessmentResult :=
  let scored := risk_texts.map score_risk
  { individual_risks := scored
    overall_risk_score := pyNpMean (scored.map (fun r => r.overall_risk_score)) }

/-! ## Spec-side definitions and helper lemmas -/

/-- Spec-side percentage change of a series: from first to last value; a
first value of exactly 0 defines the change as 0. -/
def pctChangeSpec (values : List ℚ) : ℚ :=
  if values.headI = 0 then 0
  else (values.getLastD 0 - values.headI) / |values.headI| * 100

/-- Spec-side direction thresholds: >+5% strong_up, >+1% moderate_up,
>-1% stable, >-5% moderate_down, else strong_down. -/
def directionSpec (pct : ℚ) : String :=
  if pct > 5 then ("strong_up")
  else if pct > 1 then ("moderate_up")
  else if pct > -1 then ("stable")
  else if pct > -5 then ("moderate_down")
  else ("strong_down")

theorem insertSorted_length (x : String) (l : List String) :
    (insertSorted x l).length = l.length + 1 := by
  induction l with
  | nil => rfl
  | cons y t ih =>
    simp only [insertSorted]
    split
    · simp
    · simp [ih]

theorem pySortedKeys_length (st : Statement) :
    (pySortedKeys st).length = st.length := by
  unfold pySortedKeys
  induction st with
  | nil => rfl
  | cons pd t ih => simp [insertSorted_length, ih]

/-! ## Claim C4 -/

/-- C4: `_analyze_trend` classifies direction by the percentage change from
first to last value with the >+5/>+1/>-1/>-5 thresholds, treats a zero
first value as percentage change 0 (hence stable), and yields
`insufficient_data` with strength 0 on sequences shorter than 2. -/
theorem C4_trend_direction_thresholds :
    (∀ values : List ℚ, values.length < 2 →
      analyze_trend values = TrendResult.insufficient ("insufficient_data") 0)
    ∧ (∀ values : List ℚ, 2 ≤ values.length →
      analyze_trend values =
        TrendResult.full (directionSpec (pctChangeSpec values)) (pctChangeSpec values) values)
    ∧ (∀ values : List ℚ, 2 ≤ values.length → values.headI = 0 →
      (analyze_trend values).direction = ("stable"))
    ∧ analyze_trend [100, 100] = TrendResult.full ("stable") 0 [100, 100]
    ∧ analyze_trend [100, 110] = TrendResult.full ("strong_up") 10 [100, 110]
    ∧ analyze_trend [] = TrendResult.insufficient ("insufficient_data") 0
    ∧ analyze_trend [(5 : ℚ)] = TrendResult.insufficient ("insufficient_data") 0 := by
  have hfull : ∀ values : List ℚ, 2 ≤ values.length →
      analyze_trend values =
        TrendResult.full (directionSpec (pctChangeSpec values)) (pctChangeSpec values) values := by
    intro values h
    have h2 : ¬(values.length < 2) := by omega
    simp [analyze_trend, h2, directionSpec, pctChangeSpec]
  refine ⟨?_, hfull, ?_, ?_, ?_, ?_, ?_⟩
  · intro values h
    simp [analyze_trend, h]
  · intro values h h0
    rw [hfull values h]
    simp [TrendResult.direction, pctChangeSpec, h0, directionSpec]
    norm_num
  · have h := hfull [100, 100] (by norm_num)
    rw [h]
    norm_num [pctChangeSpec, directionSpec, List.headI, List.getLastD]
  · have h := hfull [100, 110] (by norm_num)
    rw [h]
    norm_num [pctChangeSpec, directionSpec, List.headI, List.getLastD]
  · simp [analyze_trend]
  · simp [analyze_trend]

/-- Witness for C4: the quantified parts applied at concrete inputs. -/
theorem C4_trend_direction_thresholds_witness :
    (([] : List ℚ).length < 2 ∧
      analyze_trend [] = TrendResult.insufficient ("insufficient_data") 0)
    ∧ (2 ≤ ([100, 110] : List ℚ).length ∧
      analyze_trend [100, 110] =
        TrendResult.full (directionSpec (pctChangeSpec [100, 110])) (pctChangeSpec [100, 110])
          [100, 110])
    ∧ (2 ≤ ([0, 7] : List ℚ).length ∧ ([0, 7] : List ℚ).headI = 0 ∧
      (analyze_trend [0, 7]).direction = ("stable")) :=
  ⟨⟨by norm_num, C4_trend_direction_thresholds.1 [] (by norm_num)⟩,
   ⟨by norm_num, (C4_trend_direction_thresholds.2.1) [100, 110] (by norm_num)⟩,
   ⟨by norm_num, by simp,
    (C4_trend_direction_thresholds.2.2.1) [0, 7] (by norm_num) (by simp)⟩⟩

/-! ## Claim C8 -/

/-- C8: `_assess_performance` returns `Above` iff company>industry for the
liquidity and profitability ratio names, `Above` iff company<industry for
the leverage ratio names, and defaults to higher-is-better for any other
name; the result is always `Above` or `Below`. -/
theorem C8_benchmark_performance :
    (∀ c i : ℚ, ∀ name : String,
      name ∈ [("current_ratio"), ("quick_ratio"), ("cash_ratio"),
        ("gross_margin"), ("net_margin"), ("roe"), ("roa")] →
      (assess_performance c i name = ("Above") ↔ c > i))
    ∧ (∀ c i : ℚ, ∀ name : String,
      name ∈ [("debt_to_equity"), ("debt_to_assets")] →
      (assess_performance c i name = ("Above") ↔ c < i))
    ∧ (∀ c i : ℚ, ∀ name : String,
      name ∉ [("current_ratio"), ("quick_ratio"), ("cash_ratio"),
        ("gross_margin"), ("net_margin"), ("roe"), ("roa"),
        ("debt_to_equity"), ("debt_to_assets")] →
      (assess_performance c i name = ("Above") ↔ c > i))
    ∧ (∀ c i : ℚ, ∀ name : String,
      assess_performance c i name = ("Above") ∨ assess_performance c i name = ("Below"))
    ∧ assess_performance 2 (3 / 2) ("current_ratio") = ("Above")
    ∧ assess_performance (5 / 2) 1 ("debt_to_equity") = ("Below") := by
  refine ⟨?_, ?_, ?_, ?_, ?_, ?_⟩
  · intro c i name h
    fin_cases h <;> by_cases hc : c > i <;> simp [assess_performance, hc]
  · intro c i name h
    fin_cases h <;> by_cases hc : c < i <;> simp [assess_performance, hc]
  · intro c i name h
    simp only [List.mem_cons, List.not_mem_nil, or_false, not_or] at h
    obtain ⟨h1, h2, h3, h4, h5, h6, h7, h8, h9⟩ := h
    by_cases hc : c > i <;>
      simp [assess_performance, List.contains, h1, h2, h3, h4, h5, h6, h7, h8, h9, hc]
  · intro c i name
    unfold assess_performance
    split_ifs <;> simp
  · have h : ((2 : ℚ) > 3 / 2) := by norm_num
    simp [assess_performance, h]
  · have h : ¬((5 / 2 : ℚ) < 1) := by norm_num
    simp [assess_performance, h]

/-- Witness for C8: the quantified parts applied at concrete inputs. -/
theorem C8_benchmark_performance_witness :
    ((("current_ratio") : String) ∈ [("current_ratio"), ("quick_ratio"), ("cash_ratio"),
        ("gross_margin"), ("net_margin"), ("roe"), ("roa")] ∧
      (assess_performance 2 (3 / 2) ("current_ratio") = ("Above") ↔ (2 : ℚ) > 3 / 2))
    ∧ ((("debt_to_equity") : String) ∈ [("debt_to_equity"), ("debt_to_assets")] ∧
      (assess_performance (5 / 2) 1 ("debt_to_equity") = ("Above") ↔ (5 / 2 : ℚ) < 1))
    ∧ ((("inventory_turnover") : String) ∉ [("current_ratio"), ("quick_ratio"), ("cash_ratio"),
        ("gross_margin"), ("net_margin"), ("roe"), ("roa"),
        ("debt_to_equity"), ("debt_to_assets")] ∧
      (assess_performance 3 2 ("inventory_turnover") = ("Above") ↔ (3 : ℚ) > 2)) :=
  ⟨⟨by simp, C8_benchmark_performance.1 2 (3 / 2) ("current_ratio") (by simp)⟩,
   ⟨by simp, C8_benchmark_performance.2.1 (5 / 2) 1 ("debt_to_equity") (by simp)⟩,
   ⟨by simp, C8_benchmark_performance.2.2.1 3 2 ("inventory_turnover") (by simp)⟩⟩

/-! ## Claim C10 -/

/-- C10: `_calculate_growth_rates` derives its period ordering solely from
the income statement's keys; with fewer than two income-statement periods
the growth mapping is empty, even when the balance sheet has two or more
periods for `total_assets`/`total_equity`. -/
theorem C10_growth_requires_two_income_periods :
    (∀ fd : FinancialData, fd.income_statement.length < 2 →
      calculate_growth_rates fd = [])
    ∧ calculate_growth_rates
        { income_statement := [(("2023"), [(("total_assets"), some 1)])]
          balance_sheet := [(("2022"), [(("total_assets"), some 4)]),
            (("2023"), [(("total_assets"), some 5)])] } = [] := by
  constructor
  · intro fd h
    rcases hr : (pySortedKeys fd.income_statement).reverse with _ | ⟨a, _ | ⟨b, t⟩⟩
    · simp [calculate_growth_rates, hr]
    · simp [calculate_growth_rates, hr]
    · exfalso
      have hlen := congrArg List.length hr
      simp [pySortedKeys_length] at hlen
      omega
  · decide

/-- Witness for C10: the quantified part applied at a concrete
single-income-period statement set whose balance sheet has two periods. -/
theorem C10_growth_requires_two_income_periods_witness :
    ({ income_statement := [(("2023"), [(("total_assets"), some 1)])]
       balance_sheet := [(("2022"), [(("total_assets"), some 4)]),
         (("2023"), [(("total_assets"), some 5)])] } : FinancialData).income_statement.length < 2
    ∧ calculate_growth_rates
        { income_statement := [(("2023"), [(("total_assets"), some 1)])]
          balance_sheet := [(("2022"), [(("total_assets"), some 4)]),
            (("2023"), [(("total_assets"), some 5)])] } = [] :=
  ⟨by norm_num,
   C10_growth_requires_two_income_periods.1
     { income_statement := [(("2023"), [(("total_assets"), some 1)])]
       balance_sheet := [(("2022"), [(("total_assets"), some 4)]),
         (("2023"), [(("total_assets"), some 5)])] } (by norm_num)⟩

/-! ## Claim C3 -/

/-- C3 counterexample: for an empty risk-factor list the returned
`overall_risk_score` is `np.mean([])`, i.e. NaN (modelled `none`) — not
the number 0 the claim asserts. -/
theorem C3_empty_mean_counterexample :
    (assess_risk_severity []).overall_risk_score = none
    ∧ (assess_risk_severity []).overall_risk_score ≠ some 0 := by
  constructor
  · rfl
  · intro h
    simp [assess_risk_severity, pyNpMean] at h

/-- C3 amended: for a nonempty risk-factor list the returned
`overall_risk_score` is the arithmetic mean of the individual risks'
`overall_risk_score` values; for an empty list it is `np.mean([])` = NaN
(modelled `none`), not 0. -/
theorem C3_overall_mean :
    (∀ risk_texts : List String, risk_texts ≠ [] →
      (assess_risk_severity risk_texts).overall_risk_score =
        some ((((assess_risk_severity risk_texts).individual_risks.map
            (fun r => r.overall_risk_score)).sum) /
          (((assess_risk_severity risk_texts).individual_risks.length : ℚ))))
    ∧ (assess_risk_severity []).overall_risk_score = none := by
  constructor
  · intro risk_texts h
    match risk_texts with
    | [] => exact absurd rfl h
    | t :: ts => simp [assess_risk_severity, pyNpMean]
  · rfl

/-- Witness for C3: the amended mean property applied at a one-element
risk list. -/
theorem C3_overall_mean_witness :
    ([("x")] : List String) ≠ []
    ∧ (assess_risk_severity [("x")]).overall_risk_score =
        some ((((assess_risk_severity [("x")]).individual_risks.map
            (fun r => r.overall_risk_score)).sum) /
          (((assess_risk_severity [("x")]).individual_risks.length : ℚ))) :=
  ⟨by simp, C3_overall_mean.1 [("x")] (by simp)⟩

/-! ## Claim C2 -/

/-- Spec-side running maximum of the values of an association list. -/
def foldMaxQ (b : ℚ) (l : List (String × ℚ)) : ℚ :=
  l.foldl (fun a kv => max a kv.2) b

/-- Spec-side first argmax: the first key whose value attains the maximum
value of the list. -/
def firstArgmax : List (String × ℚ) → Option String
  | [] => none
  | (k, v) :: t =>
    (((k, v) :: t).find? (fun kv => kv.2 == foldMaxQ v t)).map (fun kv => kv.1)

theorem le_foldMaxQ (l : List (String × ℚ)) : ∀ b : ℚ, b ≤ foldMaxQ b l := by
  induction l with
  | nil => intro b; simp [foldMaxQ]
  | cons kv t ih =>
    intro b
    calc b ≤ max b kv.2 := le_max_left _ _
    _ ≤ foldMaxQ (max b kv.2) t := ih _
    _ = foldMaxQ b (kv :: t) := rfl

theorem foldMaxQ_attained (l : List (String × ℚ)) :
    ∀ b : ℚ, foldMaxQ b l = b ∨ ∃ kv ∈ l, kv.2 = foldMaxQ b l := by
  induction l with
  | nil => intro b; left; rfl
  | cons kv t ih =>
    intro b
    rcases ih (max b kv.2) with h | ⟨kv', hmem, hval⟩
    · have hM : foldMaxQ b (kv :: t) = max b kv.2 := h
      rcases max_cases b kv.2 with ⟨hmax, _⟩ | ⟨hmax, _⟩
      · left; rw [hM, hmax]
      · right; exact ⟨kv, List.mem_cons_self _ _, by rw [hM, hmax]⟩
    · right; exact ⟨kv', List.mem_cons_of_mem _ hmem, hval⟩

theorem pyMaxGo_eq (t : List (String × ℚ)) :
    ∀ bk : String, ∀ bv : ℚ,
      pyMaxGo bk bv t =
        if foldMaxQ bv t = bv then bk
        else ((t.find? (fun kv => kv.2 == foldMaxQ bv t)).map (fun kv => kv.1)).getD bk := by
  induction t with
  | nil => intro bk bv; simp [pyMaxGo, foldMaxQ]
  | cons kv t ih =>
    intro bk bv
    obtain ⟨k, v⟩ := kv
    have hM : foldMaxQ bv ((k, v) :: t) = foldMaxQ (max bv v) t := rfl
    by_cases hv : v > bv
    · have hmax : max bv v = v := max_eq_right (le_of_lt hv)
      rw [show pyMaxGo bk bv ((k, v) :: t) = pyMaxGo k v t from by simp [pyMaxGo, hv]]
      rw [ih k v]
      by_cases hMv : foldMaxQ v t = v
      · have hMbv : ¬(foldMaxQ bv ((k, v) :: t) = bv) := by
          rw [hM, hmax, hMv]; exact fun h => absurd h (ne_of_gt hv)
        rw [if_pos hMv, if_neg hMbv]
        have hhead : (v == foldMaxQ bv ((k, v) :: t)) = true := by
          rw [hM, hmax, hMv]; simp
        simp [List.find?, hhead]
      · have hgt : v < foldMaxQ v t := lt_of_le_of_ne (le_foldMaxQ t v) (fun h => hMv h.symm)
        have hMbv : ¬(foldMaxQ bv ((k, v) :: t) = bv) := by
          rw [hM, hmax]
          exact fun h => lt_asymm hv (h ▸ hgt)
        rw [if_neg hMv, if_neg hMbv]
        have hhead : (v == foldMaxQ v t) = false := by
          simp only [beq_eq_false_iff_ne, ne_eq]
          exact fun h => absurd hgt (by rw [← h]; exact lt_irrefl v)
        rw [hM, hmax]
        have hsome : (t.find? (fun kv => kv.2 == foldMaxQ v t)).isSome := by
          rcases foldMaxQ_attained t v with h | ⟨kv', hmem, hval⟩
          · exact absurd h hMv
          · exact List.find?_isSome.mpr ⟨kv', hmem, by simp [hval]⟩
        obtain ⟨kv', hfind⟩ := Option.isSome_iff_exists.mp hsome
        simp [List.find?, hhead, hfind]
    · have hmax : max bv v = bv := max_eq_left (not_lt.mp hv)
      rw [show pyMaxGo bk bv ((k, v) :: t) = pyMaxGo bk bv t from by simp [pyMaxGo, hv]]
      rw [ih bk bv]
      rw [hM, hmax]
      by_cases hMbv : foldMaxQ bv t = bv
      · rw [if_pos hMbv, if_pos hMbv]
      · have hgt : bv < foldMaxQ bv t := lt_of_le_of_ne (le_foldMaxQ t bv) (fun h => hMbv h.symm)
        have hhead : (v == foldMaxQ bv t) = false := by
          simp only [beq_eq_false_iff_ne, ne_eq]
          exact fun h => lt_irrefl _ (h ▸ lt_of_le_of_lt (not_lt.mp hv) hgt)
        rw [if_neg hMbv, if_neg hMbv]
        simp [List.find?, hhead]

theorem pyMaxByVal_eq_firstArgmax (l : List (String × ℚ)) :
    pyMaxByVal l = firstArgmax l := by
  match l with
  | [] => rfl
  | (k, v) :: t =>
    simp only [pyMaxByVal, firstArgmax]
    rw [pyMaxGo_eq t k v]
    by_cases hMv : foldMaxQ v t = v
    · have hhead : (v == foldMaxQ v t) = true := by simp [hMv]
      simp [List.find?, hhead, hMv]
    · have hhead : (v == foldMaxQ v t) = false := by simp; exact fun h => hMv h.symm
      have hsome : (t.find? (fun kv => kv.2 == foldMaxQ v t)).isSome := by
        rcases foldMaxQ_attained t v with h | ⟨kv', hmem, hval⟩
        · exact absurd h hMv
        · exact List.find?_isSome.mpr ⟨kv', hmem, by simp [hval]⟩
      obtain ⟨kv', hfind⟩ := Option.isSome_iff_exists.mp hsome
      simp [List.find?, hhead, hMv, hfind]

theorem pyMaxGo_mem (t : List (String × ℚ)) :
    ∀ bk : String, ∀ bv : ℚ, pyMaxGo bk bv t ∈ bk :: t.map (fun kv => kv.1) := by
  induction t with
  | nil => intro bk bv; simp [pyMaxGo]
  | cons kv t ih =>
    intro bk bv
    obtain ⟨k, v⟩ := kv
    by_cases hv : v > bv
    · have h := ih k v
      simp only [pyMaxGo, hv, if_pos]
      rcases List.mem_cons.mp h with h | h
      · simp [h]
      · simp [List.mem_cons_of_mem, h]
    · have h := ih bk bv
      simp only [pyMaxGo, hv, if_neg, if_false]
      rcases List.mem_cons.mp h with h | h
      · simp [h]
      · simp [List.mem_cons_of_mem, h]

/-- C2 amended: `_classify_risk_category` returns the first category (in
the fixed order market, operational, financial, regulatory) attaining the
maximum score; the score dict always has the four fixed categories, so
`general` is never returned — in particular an all-zero score assigns
`market_risks`, not `general`. -/
theorem C2_classification_amended :
    (∀ text : String,
      classify_risk_category text = (firstArgmax (categoryScores text)).getD ("general"))
    ∧ (∀ text : String, classify_risk_category text ≠ ("general"))
    ∧ (∀ text : String, (∀ kv ∈ categoryScores text, kv.2 = 0) →
      classify_risk_category text = ("market_risks")) := by
  have hform : ∀ text : String, ∃ v1 v2 v3 v4 : ℚ,
      categoryScores text = [(("market_risks"), v1), (("operational_risks"), v2),
        (("financial_risks"), v3), (("regulatory_risks"), v4)] := by
    intro text
    exact ⟨(categoryMatchTotal market_risk_patterns (lowerChars text) : ℚ) * (1 / 2),
      (categoryMatchTotal operational_risk_patterns (lowerChars text) : ℚ) * (1 / 2),
      (categoryMatchTotal financial_risk_patterns (lowerChars text) : ℚ) * (1 / 2),
      (categoryMatchTotal regulatory_risk_patterns (lowerChars text) : ℚ) * (1 / 2),
      by simp [categoryScores, risk_patterns]⟩
  refine ⟨?_, ?_, ?_⟩
  · intro text
    calc classify_risk_category text = (pyMaxByVal (categoryScores text)).getD ("general") := by
          cases hm : pyMaxByVal (categoryScores text) <;>
            simp [classify_risk_category, hm]
    _ = (firstArgmax (categoryScores text)).getD ("general") := by
          rw [pyMaxByVal_eq_firstArgmax]
  · intro text
    obtain ⟨v1, v2, v3, v4, he⟩ := hform text
    have hc : classify_risk_category text =
        pyMaxGo ("market_risks") v1 [(("operational_risks"), v2), (("financial_risks"), v3),
          (("regulatory_risks"), v4)] := by
      simp [classify_risk_category, he, pyMaxByVal]
    rw [hc]
    have hmem := pyMaxGo_mem [(("operational_risks"), v2), (("financial_risks"), v3),
      (("regulatory_risks"), v4)] ("market_risks") v1
    simp only [List.map, List.mem_cons, List.not_mem_nil, or_false] at hmem
    rcases hmem with h | h | h | h <;> rw [h] <;> simp
  · intro text h
    obtain ⟨v1, v2, v3, v4, he⟩ := hform text
    have h1 : v1 = 0 := h (("market_risks"), v1) (by rw [he]; simp)
    have h2 : v2 = 0 := h (("operational_risks"), v2) (by rw [he]; simp)
    have h3 : v3 = 0 := h (("financial_risks"), v3) (by rw [he]; simp)
    have h4 : v4 = 0 := h (("regulatory_risks"), v4) (by rw [he]; simp)
    subst h1 h2 h3 h4
    simp [classify_risk_category, he, pyMaxByVal, pyMaxGo]

/-- C2 counterexample: on a text with all four category scores equal to
zero (the empty text), the code returns `market_risks`, not the `general`
the claim asserts. -/
theorem C2_all_zero_counterexample :
    (∀ kv ∈ categoryScores (""), kv.2 = 0)
    ∧ classify_risk_category ("") = ("market_risks")
    ∧ classify_risk_category ("") ≠ ("general") := by
  have h1 : categoryMatchTotal market_risk_patterns (lowerChars ("")) = 0 := by decide
  have h2 : categoryMatchTotal operational_risk_patterns (lowerChars ("")) = 0 := by decide
  have h3 : categoryMatchTotal financial_risk_patterns (lowerChars ("")) = 0 := by decide
  have h4 : categoryMatchTotal regulatory_risk_patterns (lowerChars ("")) = 0 := by decide
  have hs : categoryScores ("") = [(("market_risks"), 0), (("operational_risks"), 0),
      (("financial_risks"), 0), (("regulatory_risks"), 0)] := by
    simp [categoryScores, risk_patterns, h1, h2, h3, h4]
  have hc : classify_risk_category ("") = ("market_risks") := by
    norm_num [classify_risk_category, hs, pyMaxByVal, pyMaxGo]
  refine ⟨?_, hc, ?_⟩
  · rw [hs]
    intro kv hkv
    simp only [List.mem_cons, List.not_mem_nil, or_false] at hkv
    rcases hkv with h | h | h | h <;> simp [h]
  · rw [hc]
    simp

/-- Witness for C2: the all-zero-scores part of the amended theorem applied
at the empty text. -/
theorem C2_classification_amended_witness :
    (∀ kv ∈ categoryScores (""), kv.2 = 0)
    ∧ classify_risk_category ("") = ("market_risks") := by
  have h1 : categoryMatchTotal market_risk_patterns (lowerChars ("")) = 0 := by decide
  have h2 : categoryMatchTotal operational_risk_patterns (lowerChars ("")) = 0 := by decide
  have h3 : categoryMatchTotal financial_risk_patterns (lowerChars ("")) = 0 := by decide
  have h4 : categoryMatchTotal regulatory_risk_patterns (lowerChars ("")) = 0 := by decide
  have hs : categoryScores ("") = [(("market_risks"), 0), (("operational_risks"), 0),
      (("financial_risks"), 0), (("regulatory_risks"), 0)] := by
    simp [categoryScores, risk_patterns, h1, h2, h3, h4]
  have hz : ∀ kv ∈ categoryScores (""), kv.2 = 0 := by
    rw [hs]
    intro kv hkv
    simp only [List.mem_cons, List.not_mem_nil, or_false] at hkv
    rcases hkv with h | h | h | h <;> simp [h]
  exact ⟨hz, C2_classification_amended.2.2 ("") hz⟩

/-! ## Claim C6 -/

theorem isPrefixOf_decomp : ∀ (w s : List Char), w.isPrefixOf s = true → ∃ rest, s = w ++ rest := by
  intro w
  induction w with
  | nil => intro s _; exact ⟨s, rfl⟩
  | cons a as ih =>
    intro s h
    match s with
    | [] => simp [List.isPrefixOf] at h
    | b :: bs =>
      simp only [List.isPrefixOf, Bool.and_eq_true, beq_iff_eq] at h
      obtain ⟨rest, hrest⟩ := ih bs h.2
      exact ⟨rest, by rw [h.1, hrest]; rfl⟩

theorem isPrefixOf_append_self : ∀ (w rest : List Char), w.isPrefixOf (w ++ rest) = true := by
  intro w
  induction w with
  | nil => intro rest; simp [List.isPrefixOf]
  | cons a as ih => intro rest; simp [List.isPrefixOf, ih]

theorem containsSub_decomp : ∀ (s w : List Char), containsSub w s = true →
    ∃ pre rest, s = pre ++ w ++ rest := by
  intro s
  induction s with
  | nil =>
    intro w h
    simp only [containsSub] at h
    obtain ⟨rest, hrest⟩ := isPrefixOf_decomp w [] h
    exact ⟨[], rest, hrest⟩
  | cons c t ih =>
    intro w h
    simp only [containsSub, Bool.or_eq_true] at h
    rcases h with h | h
    · obtain ⟨rest, hrest⟩ := isPrefixOf_decomp w (c :: t) h
      exact ⟨[], rest, by simpa using hrest⟩
    · obtain ⟨pre, rest, hrest⟩ := ih w h
      exact ⟨c :: pre, rest, by simp [hrest]⟩

theorem containsSub_intro : ∀ (pre w rest : List Char),
    containsSub w (pre ++ (w ++ rest)) = true := by
  intro pre
  induction pre with
  | nil =>
    intro w rest
    match hws : w ++ rest with
    | [] =>
      have hw : w = [] := by
        cases w with
        | nil => rfl
        | cons a as => simp at hws
      simp [containsSub, hw, List.isPrefixOf]
    | c :: t =>
      simp only [List.nil_append, hws, containsSub, Bool.or_eq_true]
      left
      rw [← hws]
      exact isPrefixOf_append_self w rest
  | cons c p ih =>
    intro w rest
    simp only [List.cons_append, containsSub, Bool.or_eq_true]
    right
    exact ih w rest

theorem cmatch_lits_append : ∀ (cs : List Char) (ts : List CatTok) (s : List Char),
    cmatch ts s = true → cmatch (cs.map CatTok.lit ++ ts) (cs ++ s) = true := by
  intro cs
  induction cs with
  | nil => intro ts s h; simpa using h
  | cons c cs ih =>
    intro ts s h
    simp only [List.map, List.cons_append, cmatch, Bool.and_eq_true, beq_self_eq_true, true_and]
    exact ih ts s h

theorem cmatch_dotStar_skip0 (ts : List CatTok) (s : List Char) (h : cmatch ts s = true) :
    cmatch (CatTok.dotStar :: ts) s = true := by
  cases s with
  | nil => simp [cmatch, starChoices, h]
  | cons d ds =>
    simp only [cmatch, starChoices, List.any_cons]
    simp [h]

theorem mem_starChoices_succ (d : Char) (ds : List Char) (hd : (d == ('\n')) = false)
    (x : Nat × List Char) (hx : x ∈ starChoices ds) :
    (x.1 + 1, x.2) ∈ starChoices (d :: ds) := by
  simp only [starChoices, hd, if_false, List.mem_cons]
  right
  exact List.mem_map.mpr ⟨x, hx, rfl⟩

theorem cmatch_dotStar_skip1 (ts : List CatTok) (d : Char) (ds : List Char)
    (hd : (d == ('\n')) = false) (h : cmatch ts ds = true) :
    cmatch (CatTok.dotStar :: ts) (d :: ds) = true := by
  have hmem : ((0 : Nat) + 1, ds) ∈ starChoices (d :: ds) := by
    apply mem_starChoices_succ d ds hd (0, ds)
    cases ds with
    | nil => simp [starChoices]
    | cons e es => simp [starChoices]
  simp only [cmatch]
  exact List.any_eq_true.mpr ⟨(0 + 1, ds), hmem, h⟩

theorem sevSearch_of_suffix : ∀ (pre : List Char) (p : SevPat) (suf : List Char),
    sevMatchAt p suf = true → sevSearch p (pre ++ suf) = true := by
  intro pre
  induction pre with
  | nil =>
    intro p suf h
    cases suf with
    | nil => exact h
    | cons c t => simp [sevSearch, h]
  | cons c pr ih =>
    intro p suf h
    simp only [List.cons_append, sevSearch, Bool.or_eq_true]
    right
    exact ih p suf h

theorem sevMatchAt_materially (rest : List Char) :
    sevMatchAt
      { alts := some [("materially"), ("significantly"), ("substantially")]
      , rest := [CatTok.dotStar] ++ lits ("adverse") }
      (("materially adverse").toList ++ rest) = true := by
  simp only [sevMatchAt]
  apply List.any_eq_true.mpr
  refine ⟨("materially"), by simp, ?_⟩
  have hsplit : ("materially adverse").toList = ("materially").toList ++ ((" adverse").toList) := by
    decide
  have hlen : ("materially").length = (("materially").toList).length := by decide
  rw [hsplit, List.append_assoc]
  rw [Bool.and_eq_true]
  constructor
  · exact isPrefixOf_append_self _ _
  · rw [hlen, List.drop_left]
    have hsp : ((" adverse").toList) ++ rest = (' ') :: ((("adverse").toList) ++ rest) := by
      have : ((" adverse").toList) = (' ') :: (("adverse").toList) := by decide
      rw [this]; rfl
    rw [hsp]
    apply cmatch_dotStar_skip1 _ _ _ (by decide)
    have h := cmatch_lits_append (("adverse").toList) [] rest (by simp [cmatch])
    simpa [lits] using h

/-- Spec-side per-severity base score: low 1.0, medium 3.0, high 5.0
(anything else defaults to the medium base). -/
def severityBaseSpec (severity : String) : ℚ :=
  if severity = ("low") then 1 else if severity = ("high") then 5 else 3

/-- Spec-side impact multiplier: ×1.5 when the lowercased text contains
material/significant/substantial (checked first), else ×0.7 when it
contains minor/routine/standard, else ×1. -/
def impactMultSpec (text : String) : ℚ :=
  if [("material"), ("significant"), ("substantial")].any
      (fun w => containsSub w.toList (lowerChars text)) then 3 / 2
  else if [("minor"), ("routine"), ("standard")].any
      (fun w => containsSub w.toList (lowerChars text)) then 7 / 10
  else 1
/-- C6: severity is the first matching bucket in priority order high,
medium, low (a medium match matters only when no high pattern matches, a
low match only when neither a high nor a medium pattern matches), with
default `medium` when no bucket matches; `impact_score` is the
per-severity base times the keyword multiplier, capped at 5.0; in
particular a text containing `materially adverse` gets severity `high`
and impact score min(5.0×1.5, 5.0) = 5.0. -/
theorem C6_severity_and_impact :
    (∀ text : String,
      high_severity_patterns.any (fun p => sevSearch p (lowerChars text)) = true →
      assess_risk_severity_level text = ("high"))
    ∧ (∀ text : String,
      high_severity_patterns.any (fun p => sevSearch p (lowerChars text)) = false →
      medium_severity_patterns.any (fun p => sevSearch p (lowerChars text)) = true →
      assess_risk_severity_level text = ("medium"))
    ∧ (∀ text : String,
      high_severity_patterns.any (fun p => sevSearch p (lowerChars text)) = false →
      medium_severity_patterns.any (fun p => sevSearch p (lowerChars text)) = false →
      low_severity_patterns.any (fun p => sevSearch p (lowerChars text)) = true →
      assess_risk_severity_level text = ("low"))
    ∧ (∀ text : String,
      high_severity_patterns.any (fun p => sevSearch p (lowerChars text)) = false →
      medium_severity_patterns.any (fun p => sevSearch p (lowerChars text)) = false →
      low_severity_patterns.any (fun p => sevSearch p (lowerChars text)) = false →
      assess_risk_severity_level text = ("medium"))
    ∧ (∀ text : String,
      containsSub (("materially adverse").toList) (lowerChars text) = true →
      assess_risk_severity_level text = ("high")
        ∧ calculate_impact_score text (assess_risk_severity_level text) = 5)
    ∧ (∀ text severity : String,
      calculate_impact_score text severity =
        min (severityBaseSpec severity * impactMultSpec text) 5) := by
  have hbase : ∀ severity : String,
      ((severity_weights.lookup severity).getD 3) = severityBaseSpec severity := by
    intro severity
    by_cases h1 : severity = ("low")
    · simp [severity_weights, List.lookup, severityBaseSpec, h1]
    · by_cases h2 : severity = ("medium")
      · simp [severity_weights, List.lookup, severityBaseSpec, h1, h2]
      · by_cases h3 : severity = ("high")
        · simp [severity_weights, List.lookup, severityBaseSpec, h1, h2, h3]
        · have b1 : (severity == ("low")) = false := beq_eq_false_iff_ne.mpr h1
          have b2 : (severity == ("medium")) = false := beq_eq_false_iff_ne.mpr h2
          have b3 : (severity == ("high")) = false := beq_eq_false_iff_ne.mpr h3
          simp [severity_weights, List.lookup, severityBaseSpec, b1, b2, b3, h1, h3]
  have himpact : ∀ text severity : String,
      calculate_impact_score text severity =
        min (severityBaseSpec severity * impactMultSpec text) 5 := by
    intro text severity
    unfold calculate_impact_score impactMultSpec
    rw [hbase]
    by_cases hA : [("material"), ("significant"), ("substantial")].any
        (fun w => containsSub w.toList (lowerChars text)) = true
    · simp [hA]
    · by_cases hB : [("minor"), ("routine"), ("standard")].any
          (fun w => containsSub w.toList (lowerChars text)) = true
      · simp [hA, hB]
      · simp [hA, hB]
  have hhigh : ∀ text : String,
      high_severity_patterns.any (fun p => sevSearch p (lowerChars text)) = true →
      assess_risk_severity_level text = ("high") := by
    intro text h
    simp [assess_risk_severity_level, severity_indicators, List.findSome?, h]
  have hmed : ∀ text : String,
      high_severity_patterns.any (fun p => sevSearch p (lowerChars text)) = false →
      medium_severity_patterns.any (fun p => sevSearch p (lowerChars text)) = true →
      assess_risk_severity_level text = ("medium") := by
    intro text hh hm
    simp [assess_risk_severity_level, severity_indicators, List.findSome?, hh, hm]
  have hlow : ∀ text : String,
      high_severity_patterns.any (fun p => sevSearch p (lowerChars text)) = false →
      medium_severity_patterns.any (fun p => sevSearch p (lowerChars text)) = false →
      low_severity_patterns.any (fun p => sevSearch p (lowerChars text)) = true →
      assess_risk_severity_level text = ("low") := by
    intro text hh hm hl
    simp [assess_risk_severity_level, severity_indicators, List.findSome?, hh, hm, hl]
  have hdefault : ∀ text : String,
      high_severity_patterns.any (fun p => sevSearch p (lowerChars text)) = false →
      medium_severity_patterns.any (fun p => sevSearch p (lowerChars text)) = false →
      low_severity_patterns.any (fun p => sevSearch p (lowerChars text)) = false →
      assess_risk_severity_level text = ("medium") := by
    intro text hh hm hl
    simp [assess_risk_severity_level, severity_indicators, List.findSome?, hh, hm, hl]
  refine ⟨hhigh, hmed, hlow, hdefault, ?_, himpact⟩
  intro text h
  obtain ⟨pre, rest, hsplit⟩ := containsSub_decomp (lowerChars text) _ h
  have hsearch : sevSearch
      (SevPat.mk (some [("materially"), ("significantly"), ("substantially")])
        ([CatTok.dotStar] ++ lits ("adverse"))) (lowerChars text) = true := by
    rw [hsplit]
    simp only [List.append_assoc]
    exact sevSearch_of_suffix pre _ _ (sevMatchAt_materially rest)
  have hany : high_severity_patterns.any (fun p => sevSearch p (lowerChars text)) = true := by
    apply List.any_eq_true.mpr
    refine ⟨SevPat.mk (some [("materially"), ("significantly"), ("substantially")])
        ([CatTok.dotStar] ++ lits ("adverse")), ?_, hsearch⟩
    simp [high_severity_patterns]
  have hlevel := hhigh text hany
  refine ⟨hlevel, ?_⟩
  rw [hlevel, himpact]
  have hmat : containsSub (("material").toList) (lowerChars text) = true := by
    have hm : ("materially adverse").toList =
        ("material").toList ++ (("ly adverse").toList) := by decide
    rw [hsplit, hm]
    simp only [List.append_assoc]
    exact containsSub_intro pre _ _
  have hA : [("material"), ("significant"), ("substantial")].any
      (fun w => containsSub w.toList (lowerChars text)) = true := by
    apply List.any_eq_true.mpr
    exact ⟨("material"), by simp, hmat⟩
  rw [show severityBaseSpec ("high") = 5 from by simp [severityBaseSpec]]
  rw [show impactMultSpec text = 3 / 2 from by unfold impactMultSpec; rw [if_pos hA]]
  norm_num

/-- Witness for C6: each bucket of the priority order exercised at a
concrete text (high via `materially adverse`, medium-first, low-first),
plus the impact formula. -/
theorem C6_severity_and_impact_witness :
    (containsSub (("materially adverse").toList)
      (lowerChars ("This could be Materially Adverse to our business")) = true)
    ∧ assess_risk_severity_level ("This could be Materially Adverse to our business") = ("high")
    ∧ calculate_impact_score ("This could be Materially Adverse to our business")
        (assess_risk_severity_level ("This could be Materially Adverse to our business")) = 5
    ∧ (high_severity_patterns.any
        (fun p => sevSearch p (lowerChars ("this may impact sales"))) = false
      ∧ medium_severity_patterns.any
        (fun p => sevSearch p (lowerChars ("this may impact sales"))) = true
      ∧ assess_risk_severity_level ("this may impact sales") = ("medium"))
    ∧ (high_severity_patterns.any
        (fun p => sevSearch p (lowerChars ("a routine matter"))) = false
      ∧ medium_severity_patterns.any
        (fun p => sevSearch p (lowerChars ("a routine matter"))) = false
      ∧ low_severity_patterns.any
        (fun p => sevSearch p (lowerChars ("a routine matter"))) = true
      ∧ assess_risk_severity_level ("a routine matter") = ("low"))
    ∧ calculate_impact_score ("routine things") ("low") =
        min (severityBaseSpec ("low") * impactMultSpec ("routine things")) 5 := by
  have h : containsSub (("materially adverse").toList)
      (lowerChars ("This could be Materially Adverse to our business")) = true := by decide
  have hmain := C6_severity_and_impact.2.2.2.2.1
    ("This could be Materially Adverse to our business") h
  have hmh : high_severity_patterns.any
      (fun p => sevSearch p (lowerChars ("this may impact sales"))) = false := by decide
  have hmm : medium_severity_patterns.any
      (fun p => sevSearch p (lowerChars ("this may impact sales"))) = true := by decide
  have hlh : high_severity_patterns.any
      (fun p => sevSearch p (lowerChars ("a routine matter"))) = false := by decide
  have hlm : medium_severity_patterns.any
      (fun p => sevSearch p (lowerChars ("a routine matter"))) = false := by decide
  have hll : low_severity_patterns.any
      (fun p => sevSearch p (lowerChars ("a routine matter"))) = true := by decide
  exact ⟨h, hmain.1, hmain.2,
    ⟨hmh, hmm, C6_severity_and_impact.2.1 ("this may impact sales") hmh hmm⟩,
    ⟨hlh, hlm, hll, C6_severity_and_impact.2.2.1 ("a routine matter") hlh hlm hll⟩,
    C6_severity_and_impact.2.2.2.2.2 ("routine things") ("low")⟩


/-! ## Claim C5 -/

/-- Spec-side contribution of a higher-is-better ratio: 25 at the good
threshold, 12.5 at the acceptable threshold, else 0; absent contributes
nothing. -/
def contribAtLeast (v? : Option ℚ) (good acceptable : ℚ) : ℚ :=
  match v? with
  | none => 0
  | some v => if v ≥ good then 25 else if v ≥ acceptable then 25 / 2 else 0

/-- Spec-side contribution of a lower-is-better ratio. -/
def contribAtMost (v? : Option ℚ) (good acceptable : ℚ) : ℚ :=
  match v? with
  | none => 0
  | some v => if v ≤ good then 25 else if v ≤ acceptable then 25 / 2 else 0

/-- Spec-side health level: ≥80 Excellent, ≥60 Good, ≥40 Fair, else Poor. -/
def levelSpec (score : ℚ) : String :=
  if score ≥ 80 then ("Excellent")
  else if score ≥ 60 then ("Good")
  else if score ≥ 40 then ("Fair")
  else ("Poor")

theorem healthBlock_fst_ge (v? : Option ℚ) (g a : ℚ) (issue : ℚ → String) :
    (healthBlock v? (fun v => v ≥ g) (fun v => v ≥ a) issue).1 = contribAtLeast v? g a := by
  cases v? with
  | none => rfl
  | some v =>
    simp only [healthBlock, contribAtLeast, decide_eq_true_eq]
    split_ifs <;> rfl

theorem healthBlock_fst_le (v? : Option ℚ) (g a : ℚ) (issue : ℚ → String) :
    (healthBlock v? (fun v => v ≤ g) (fun v => v ≤ a) issue).1 = contribAtMost v? g a := by
  cases v? with
  | none => rfl
  | some v =>
    simp only [healthBlock, contribAtMost, decide_eq_true_eq]
    split_ifs <;> rfl

theorem healthBlock_bounds (v? : Option ℚ) (good acceptable : ℚ → Bool) (issue : ℚ → String) :
    0 ≤ (healthBlock v? good acceptable issue).1
    ∧ (healthBlock v? good acceptable issue).1 ≤ (healthBlock v? good acceptable issue).2.1 := by
  cases v? with
  | none => exact ⟨le_refl 0, le_refl 0⟩
  | some v =>
    simp only [healthBlock]
    split_ifs <;> norm_num

theorem healthBlock_max (v? : Option ℚ) (good acceptable : ℚ → Bool) (issue : ℚ → String) :
    (healthBlock v? good acceptable issue).2.1 = if v?.isSome then 25 else 0 := by
  cases v? with
  | none => rfl
  | some v =>
    simp only [healthBlock, Option.isSome_some, if_true]
    split_ifs <;> rfl

theorem healthBlock_issues_ge (v? : Option ℚ) (g a : ℚ) (issue : ℚ → String) (hga : a ≤ g) :
    ((healthBlock v? (fun v => v ≥ g) (fun v => v ≥ a) issue).2.2).length =
      v?.elim 0 (fun v => if v ≥ a then 0 else 1) := by
  cases v? with
  | none => rfl
  | some v =>
    simp only [healthBlock, Option.elim_some, decide_eq_true_eq]
    split_ifs with h1 h2 h2 <;> first
      | rfl
      | (exfalso; exact h2 (le_trans hga h1))

theorem healthBlock_issues_le (v? : Option ℚ) (g a : ℚ) (issue : ℚ → String) (hga : g ≤ a) :
    ((healthBlock v? (fun v => v ≤ g) (fun v => v ≤ a) issue).2.2).length =
      v?.elim 0 (fun v => if v ≤ a then 0 else 1) := by
  cases v? with
  | none => rfl
  | some v =>
    simp only [healthBlock, Option.elim_some, decide_eq_true_eq]
    split_ifs with h1 h2 h2 <;> first
      | rfl
      | (exfalso; exact h2 (le_trans h1 hga))

theorem contribAtLeast_bounds (v? : Option ℚ) (g a : ℚ) :
    0 ≤ contribAtLeast v? g a ∧ contribAtLeast v? g a ≤ if v?.isSome then 25 else 0 := by
  cases v? with
  | none => simp [contribAtLeast]
  | some v =>
    simp only [contribAtLeast, Option.isSome_some, if_true]
    split_ifs <;> norm_num

theorem contribAtMost_bounds (v? : Option ℚ) (g a : ℚ) :
    0 ≤ contribAtMost v? g a ∧ contribAtMost v? g a ≤ if v?.isSome then 25 else 0 := by
  cases v? with
  | none => simp [contribAtMost]
  | some v =>
    simp only [contribAtMost, Option.isSome_some, if_true]
    split_ifs <;> norm_num

/-- C5: the health score is in [0,100] and equals
100×current_score/max_score (0 when max_score is 0); each present ratio
adds 25 to the maximum and contributes 25 / 12.5 / 0 by the documented
thresholds, with one issue string exactly when a present ratio misses its
acceptable threshold; the level follows the 80/60/40 cutoffs. -/
theorem C5_financial_health (r : RatioSet) :
    0 ≤ (assess_financial_health r).score
    ∧ (assess_financial_health r).score ≤ 100
    ∧ (assess_financial_health r).score =
        (if (assess_financial_health r).max_score = 0 then 0
         else (assess_financial_health r).current_score /
           (assess_financial_health r).max_score * 100)
    ∧ (assess_financial_health r).current_score =
        contribAtLeast (get_latest_ratio r.liquidity ("current_ratio")) (3 / 2) 1
        + contribAtLeast (get_latest_ratio r.profitability ("net_margin")) (1 / 10) (1 / 20)
        + contribAtMost (get_latest_ratio r.leverage ("debt_to_equity")) 1 2
        + contribAtLeast (get_latest_ratio r.efficiency ("asset_turnover")) (1 / 2) (1 / 4)
    ∧ (assess_financial_health r).max_score =
        (if (get_latest_ratio r.liquidity ("current_ratio")).isSome then 25 else 0)
        + (if (get_latest_ratio r.profitability ("net_margin")).isSome then 25 else 0)
        + (if (get_latest_ratio r.leverage ("debt_to_equity")).isSome then 25 else 0)
        + (if (get_latest_ratio r.efficiency ("asset_turnover")).isSome then 25 else 0)
    ∧ (assess_financial_health r).issues.length =
        (get_latest_ratio r.liquidity ("current_ratio")).elim 0
          (fun v => if v ≥ 1 then 0 else 1)
        + (get_latest_ratio r.profitability ("net_margin")).elim 0
          (fun v => if v ≥ 1 / 20 then 0 else 1)
        + (get_latest_ratio r.leverage ("debt_to_equity")).elim 0
          (fun v => if v ≤ 2 then 0 else 1)
        + (get_latest_ratio r.efficiency ("asset_turnover")).elim 0
          (fun v => if v ≥ 1 / 4 then 0 else 1)
    ∧ (assess_financial_health r).level = levelSpec (assess_financial_health r).score := by
  have hcur : (assess_financial_health r).current_score =
      contribAtLeast (get_latest_ratio r.liquidity ("current_ratio")) (3 / 2) 1
      + contribAtLeast (get_latest_ratio r.profitability ("net_margin")) (1 / 10) (1 / 20)
      + contribAtMost (get_latest_ratio r.leverage ("debt_to_equity")) 1 2
      + contribAtLeast (get_latest_ratio r.efficiency ("asset_turnover")) (1 / 2) (1 / 4) := by
    show (healthBlock _ _ _ _).1 + (healthBlock _ _ _ _).1 + (healthBlock _ _ _ _).1
        + (healthBlock _ _ _ _).1 = _
    rw [healthBlock_fst_ge, healthBlock_fst_ge, healthBlock_fst_le, healthBlock_fst_ge]
  have hmax : (assess_financial_health r).max_score =
      (if (get_latest_ratio r.liquidity ("current_ratio")).isSome then 25 else 0)
      + (if (get_latest_ratio r.profitability ("net_margin")).isSome then 25 else 0)
      + (if (get_latest_ratio r.leverage ("debt_to_equity")).isSome then 25 else 0)
      + (if (get_latest_ratio r.efficiency ("asset_turnover")).isSome then 25 else 0) := by
    show (healthBlock _ _ _ _).2.1 + (healthBlock _ _ _ _).2.1 + (healthBlock _ _ _ _).2.1
        + (healthBlock _ _ _ _).2.1 = _
    rw [healthBlock_max, healthBlock_max, healthBlock_max, healthBlock_max]
  have hcur_nonneg : 0 ≤ (assess_financial_health r).current_score := by
    rw [hcur]
    have c1 := contribAtLeast_bounds (get_latest_ratio r.liquidity ("current_ratio")) (3 / 2) 1
    have c2 := contribAtLeast_bounds (get_latest_ratio r.profitability ("net_margin"))
      (1 / 10) (1 / 20)
    have c3 := contribAtMost_bounds (get_latest_ratio r.leverage ("debt_to_equity")) 1 2
    have c4 := contribAtLeast_bounds (get_latest_ratio r.efficiency ("asset_turnover"))
      (1 / 2) (1 / 4)
    linarith [c1.1, c2.1, c3.1, c4.1]
  have hcur_le_max : (assess_financial_health r).current_score ≤
      (assess_financial_health r).max_score := by
    rw [hcur, hmax]
    have c1 := contribAtLeast_bounds (get_latest_ratio r.liquidity ("current_ratio")) (3 / 2) 1
    have c2 := contribAtLeast_bounds (get_latest_ratio r.profitability ("net_margin"))
      (1 / 10) (1 / 20)
    have c3 := contribAtMost_bounds (get_latest_ratio r.leverage ("debt_to_equity")) 1 2
    have c4 := contribAtLeast_bounds (get_latest_ratio r.efficiency ("asset_turnover"))
      (1 / 2) (1 / 4)
    linarith [c1.2, c2.2, c3.2, c4.2]
  have hmax_nonneg : 0 ≤ (assess_financial_health r).max_score := by
    rw [hmax]
    split_ifs <;> norm_num
  have hscore : (assess_financial_health r).score =
      (if (assess_financial_health r).max_score > 0 then
        (assess_financial_health r).current_score / (assess_financial_health r).max_score * 100
       else 0) := rfl
  have hscore_eq : (assess_financial_health r).score =
      (if (assess_financial_health r).max_score = 0 then 0
       else (assess_financial_health r).current_score /
         (assess_financial_health r).max_score * 100) := by
    rw [hscore]
    rcases lt_or_eq_of_le hmax_nonneg with h | h
    · rw [if_pos h, if_neg (ne_of_gt h)]
    · rw [if_neg (by rw [← h]; exact lt_irrefl 0), if_pos h.symm]
  have hbounds : 0 ≤ (assess_financial_health r).score
      ∧ (assess_financial_health r).score ≤ 100 := by
    rw [hscore]
    split_ifs with h
    · constructor
      · positivity
      · have h1 : (assess_financial_health r).current_score /
            (assess_financial_health r).max_score ≤ 1 :=
          (div_le_one h).mpr hcur_le_max
        calc (assess_financial_health r).current_score /
            (assess_financial_health r).max_score * 100 ≤ 1 * 100 := by
              apply mul_le_mul_of_nonneg_right h1
              norm_num
        _ = 100 := by norm_num
    · norm_num
  have hissues : (assess_financial_health r).issues.length =
      (get_latest_ratio r.liquidity ("current_ratio")).elim 0
        (fun v => if v ≥ 1 then 0 else 1)
      + (get_latest_ratio r.profitability ("net_margin")).elim 0
        (fun v => if v ≥ 1 / 20 then 0 else 1)
      + (get_latest_ratio r.leverage ("debt_to_equity")).elim 0
        (fun v => if v ≤ 2 then 0 else 1)
      + (get_latest_ratio r.efficiency ("asset_turnover")).elim 0
        (fun v => if v ≥ 1 / 4 then 0 else 1) := by
    show ((healthBlock _ _ _ _).2.2 ++ (healthBlock _ _ _ _).2.2 ++ (healthBlock _ _ _ _).2.2
        ++ (healthBlock _ _ _ _).2.2).length = _
    rw [List.length_append, List.length_append, List.length_append]
    rw [healthBlock_issues_ge _ _ _ _ (by norm_num), healthBlock_issues_ge _ _ _ _ (by norm_num),
      healthBlock_issues_le _ _ _ _ (by norm_num), healthBlock_issues_ge _ _ _ _ (by norm_num)]
  have hlevel : (assess_financial_health r).level =
      levelSpec (assess_financial_health r).score := rfl
  exact ⟨hbounds.1, hbounds.2, hscore_eq, hcur, hmax, hissues, hlevel⟩

/-! ## Claim C1 -/

/-- A period mapping whose present values are all numeric (no `None`). -/
def AllNumeric (d : PeriodData) : Prop :=
  ∀ kv ∈ d, kv.2.isSome = true

/-- The numeric value `data.get(key, 0)` yields on all-numeric data. -/
def numGet (d : PeriodData) (k : String) : ℚ :=
  (pyGet d k).getD 0

/-- Spec-side ratio value: null exactly on a zero denominator, the exact
quotient otherwise. -/
def divOrNull (n den : ℚ) : PyVal :=
  if den = 0 then none else some (n / den)

/-- Spec-side numeric gross profit: the stored `gross_profit` when present
and numeric, else `revenue - cost_of_goods_sold` (with absent items
defaulting to 0). -/
def grossProfitN (d : PeriodData) : ℚ :=
  ((d.lookup ("gross_profit")).getD
    (some (numGet d ("revenue") - numGet d ("cost_of_goods_sold")))).getD 0

theorem lookupPair_mem {β : Type} : ∀ (d : List (String × β)) (k : String) (v : β),
    d.lookup k = some v → ∃ k', (k', v) ∈ d := by
  intro d
  induction d with
  | nil => intro k v h; simp [List.lookup] at h
  | cons kv t ih =>
    intro k v h
    obtain ⟨k1, v1⟩ := kv
    simp only [List.lookup] at h
    cases hbk : (k == k1) with
    | true =>
      rw [hbk] at h
      simp only [Option.some.injEq] at h
      exact ⟨k1, by rw [← h]; exact List.mem_cons_self _ _⟩
    | false =>
      rw [hbk] at h
      obtain ⟨k', hmem⟩ := ih k v h
      exact ⟨k', List.mem_cons_of_mem _ hmem⟩

theorem pyGet_allNumeric (d : PeriodData) (h : AllNumeric d) (k : String) :
    pyGet d k = some (numGet d k) := by
  unfold pyGet numGet pyGet
  cases hl : d.lookup k with
  | none => rfl
  | some v =>
    obtain ⟨k', hmem⟩ := lookupPair_mem d k v hl
    have hv := h (k', v) hmem
    obtain ⟨q, hq⟩ := Option.isSome_iff_exists.mp hv
    have hq' : v = some q := hq
    simp [hq']

theorem grossProfit_allNumeric (d : PeriodData) (h : AllNumeric d) :
    (d.lookup ("gross_profit")).getD
        (some (numGet d ("revenue") - numGet d ("cost_of_goods_sold")))
      = some (grossProfitN d) := by
  unfold grossProfitN
  cases hl : d.lookup ("gross_profit") with
  | none => rfl
  | some v =>
    obtain ⟨k', hmem⟩ := lookupPair_mem d _ v hl
    have hv := h (k', v) hmem
    obtain ⟨q, hq⟩ := Option.isSome_iff_exists.mp hv
    have hq' : v = some q := hq
    simp [hq']

theorem ratioStep_num (name : String) (n den : ℚ) :
    ratioStep name (some n) (some den) = Except.ok (name, divOrNull n den) := by
  unfold ratioStep divOrNull
  by_cases h : den = 0
  · simp [h]
  · simp [h]

/-- C1 amended: on all-numeric period data the four ratio-calculation
functions record every ratio of the period (no exception escapes, nothing
is skipped); a recorded ratio is null exactly when its denominator — after
absent line items default to 0 — is zero, and otherwise is the finite
quotient of its inputs, so an absent numerator input yields a computed
ratio (of a zero numerator), not null. -/
theorem C1_ratio_null_amended :
    (∀ period : String, ∀ data : PeriodData, AllNumeric data →
      liquidityPeriod period data =
        [ ((("current_ratio_") ++ period),
            divOrNull (numGet data ("total_current_assets"))
              (numGet data ("total_current_liabilities")))
        , ((("quick_ratio_") ++ period),
            divOrNull (numGet data ("total_current_assets") - numGet data ("inventory"))
              (numGet data ("total_current_liabilities")))
        , ((("cash_ratio_") ++ period),
            divOrNull (numGet data ("cash_and_cash_equivalents")
                + numGet data ("marketable_securities"))
              (numGet data ("total_current_liabilities"))) ])
    ∧ (∀ period : String, ∀ data : PeriodData, ∀ bs : Option Statement, AllNumeric data →
      (∀ bd, bsLookup bs period = some bd → AllNumeric bd) →
      profitabilityPeriod period data bs =
        [ ((("gross_margin_") ++ period),
            divOrNull (grossProfitN data) (numGet data ("revenue")))
        , ((("operating_margin_") ++ period),
            divOrNull (numGet data ("operating_income")) (numGet data ("revenue")))
        , ((("net_margin_") ++ period),
            divOrNull (numGet data ("net_income")) (numGet data ("revenue"))) ]
        ++ (match bsLookup bs period with
            | none => []
            | some bd =>
              [ ((("roa_") ++ period),
                  divOrNull (numGet data ("net_income")) (numGet bd ("total_assets")))
              , ((("roe_") ++ period),
                  divOrNull (numGet data ("net_income")) (numGet bd ("total_equity"))) ]))
    ∧ (∀ period : String, ∀ data : PeriodData, ∀ bs : Statement, AllNumeric data →
      (∀ bd, bs.lookup period = some bd → AllNumeric bd) →
      efficiencyPeriod period data bs =
        (match bs.lookup period with
         | none => []
         | some bd =>
           [ ((("asset_turnover_") ++ period),
               divOrNull (numGet data ("revenue")) (numGet bd ("total_assets")))
           , ((("inventory_turnover_") ++ period),
               divOrNull (numGet data ("cost_of_goods_sold")) (numGet bd ("inventory")))
           , ((("receivables_turnover_") ++ period),
               divOrNull (numGet data ("revenue")) (numGet bd ("accounts_receivable"))) ]))
    ∧ (∀ period : String, ∀ data : PeriodData, ∀ bs : Statement, AllNumeric data →
      (∀ bd, bs.lookup period = some bd → AllNumeric bd) →
      leveragePeriod period data bs =
        (match bs.lookup period with
         | none => []
         | some bd =>
           [ ((("debt_to_equity_") ++ period),
               divOrNull (numGet bd ("total_liabilities")) (numGet bd ("total_equity")))
           , ((("debt_to_assets_") ++ period),
               divOrNull (numGet bd ("total_liabilities")) (numGet bd ("total_assets"))) ])
        ++ [ ((("interest_coverage_") ++ period),
               divOrNull (numGet data ("operating_income"))
                 (numGet data ("interest_expense"))) ]) := by
  refine ⟨?_, ?_, ?_, ?_⟩
  · intro period data h
    have h1 := pyGet_allNumeric data h ("total_current_assets")
    have h2 := pyGet_allNumeric data h ("total_current_liabilities")
    have h3 := pyGet_allNumeric data h ("cash_and_cash_equivalents")
    have h4 := pyGet_allNumeric data h ("marketable_securities")
    have h5 := pyGet_allNumeric data h ("inventory")
    simp only [liquidityPeriod, h1, h2, h3, h4, h5, pySub, pyAdd, ratioStep_num]
  · intro period data bs h hb
    have h1 := pyGet_allNumeric data h ("revenue")
    have h2 := pyGet_allNumeric data h ("cost_of_goods_sold")
    have h3 := pyGet_allNumeric data h ("operating_income")
    have h4 := pyGet_allNumeric data h ("net_income")
    have hgp := grossProfit_allNumeric data h
    rcases hbs : bsLookup bs period with _ | bd
    · simp only [profitabilityPeriod, h1, h2, h3, h4, pySub, hgp, ratioStep_num, hbs,
        List.append_nil]
    · have hbd := hb bd hbs
      have h5 := pyGet_allNumeric bd hbd ("total_assets")
      have h6 := pyGet_allNumeric bd hbd ("total_equity")
      simp only [profitabilityPeriod, h1, h2, h3, h4, pySub, hgp, h5, h6, ratioStep_num, hbs]
      rfl
  · intro period data bs h hb
    have h1 := pyGet_allNumeric data h ("revenue")
    have h2 := pyGet_allNumeric data h ("cost_of_goods_sold")
    rcases hbs : bs.lookup period with _ | bd
    · simp only [efficiencyPeriod, hbs]
    · have hbd := hb bd hbs
      have h3 := pyGet_allNumeric bd hbd ("total_assets")
      have h4 := pyGet_allNumeric bd hbd ("inventory")
      have h5 := pyGet_allNumeric bd hbd ("accounts_receivable")
      simp only [efficiencyPeriod, h1, h2, h3, h4, h5, ratioStep_num, hbs]
  · intro period data bs h hb
    have h1 := pyGet_allNumeric data h ("operating_income")
    have h2 := pyGet_allNumeric data h ("interest_expense")
    rcases hbs : bs.lookup period with _ | bd
    · simp only [leveragePeriod, h1, h2, ratioStep_num, hbs]
      rfl
    · have hbd := hb bd hbs
      have h3 := pyGet_allNumeric bd hbd ("total_liabilities")
      have h4 := pyGet_allNumeric bd hbd ("total_equity")
      have h5 := pyGet_allNumeric bd hbd ("total_assets")
      simp only [leveragePeriod, h1, h2, h3, h4, h5, ratioStep_num, hbs]
      rfl

/-- C1 counterexample: with `total_current_assets` absent from the period
mapping (and `total_current_liabilities` = 100), the recorded
`current_ratio` is the number 0.0 — the absent input defaulted to 0 — not
the null the claim requires for an absent required input. -/
theorem C1_absent_numerator_counterexample :
    List.lookup ("current_ratio_2023")
        (calculate_liquidity_ratios [(("2023"), [(("total_current_liabilities"), some 100)])])
      = some (some 0)
    ∧ (some (some (0 : ℚ)) : Option PyVal) ≠ some none := by
  constructor
  · have h1 : pyGet [(("total_current_liabilities"), some (100 : ℚ))]
        ("total_current_assets") = some 0 := by decide
    have h2 : pyGet [(("total_current_liabilities"), some (100 : ℚ))]
        ("total_current_liabilities") = some 100 := by decide
    have h3 : pyGet [(("total_current_liabilities"), some (100 : ℚ))]
        ("cash_and_cash_equivalents") = some 0 := by decide
    have h4 : pyGet [(("total_current_liabilities"), some (100 : ℚ))]
        ("marketable_securities") = some 0 := by decide
    have h5 : pyGet [(("total_current_liabilities"), some (100 : ℚ))]
        ("inventory") = some 0 := by decide
    have hL : calculate_liquidity_ratios
        [(("2023"), [(("total_current_liabilities"), some 100)])] =
        liquidityPeriod ("2023") [(("total_current_liabilities"), some 100)] ++ [] := rfl
    rw [hL, List.append_nil]
    simp only [liquidityPeriod, h1, h2, h3, h4, h5, pySub, pyAdd, ratioStep_num]
    norm_num [divOrNull]
    decide
  · simp

/-- Witness for C1: the all-numeric liquidity part applied at a concrete
period. -/
theorem C1_ratio_null_amended_witness :
    AllNumeric [(("total_current_assets"), some 500000),
      (("total_current_liabilities"), some 250000), (("inventory"), some 150000)]
    ∧ liquidityPeriod ("2023")
        [(("total_current_assets"), some 500000),
          (("total_current_liabilities"), some 250000), (("inventory"), some 150000)] =
        [ ((("current_ratio_2023")),
            divOrNull (numGet [(("total_current_assets"), some 500000),
                (("total_current_liabilities"), some 250000), (("inventory"), some 150000)]
                ("total_current_assets"))
              (numGet [(("total_current_assets"), some 500000),
                (("total_current_liabilities"), some 250000), (("inventory"), some 150000)]
                ("total_current_liabilities")))
        , ((("quick_ratio_2023")),
            divOrNull (numGet [(("total_current_assets"), some 500000),
                (("total_current_liabilities"), some 250000), (("inventory"), some 150000)]
                ("total_current_assets")
              - numGet [(("total_current_assets"), some 500000),
                (("total_current_liabilities"), some 250000), (("inventory"), some 150000)]
                ("inventory"))
              (numGet [(("total_current_assets"), some 500000),
                (("total_current_liabilities"), some 250000), (("inventory"), some 150000)]
                ("total_current_liabilities")))
        , ((("cash_ratio_2023")),
            divOrNull (numGet [(("total_current_assets"), some 500000),
                (("total_current_liabilities"), some 250000), (("inventory"), some 150000)]
                ("cash_and_cash_equivalents")
              + numGet [(("total_current_assets"), some 500000),
                (("total_current_liabilities"), some 250000), (("inventory"), some 150000)]
                ("marketable_securities"))
              (numGet [(("total_current_assets"), some 500000),
                (("total_current_liabilities"), some 250000), (("inventory"), some 150000)]
                ("total_current_liabilities"))) ] :=
  ⟨by unfold AllNumeric; decide,
   C1_ratio_null_amended.1 ("2023")
     [(("total_current_assets"), some 500000),
       (("total_current_liabilities"), some 250000), (("inventory"), some 150000)]
     (by unfold AllNumeric; decide)⟩

/-! ## Claim C7 -/

/-- Spec-side resolution of a metric's value in a period: the
income-statement value when present and non-null, else the balance-sheet
value (null/absent resolve to `none`). -/
def resolvedValue (fd : FinancialData) (period metric : String) : Option ℚ :=
  match stmtValue fd.income_statement period metric with
  | some v => some v
  | none => stmtValue fd.balance_sheet period metric

/-- C7: a growth rate is produced only between the two lexicographically
latest income-statement periods, only when both resolved values are
present and the previous one is nonzero; the rate is
((current−previous)/|previous|)×100, and the concrete 1000000-vs-800000
example yields 25.0. -/
theorem C7_growth_rates :
    (∀ fd : FinancialData, ∀ ps : List String, ∀ pPrev pLast : String,
      pySortedKeys fd.income_statement = ps ++ [pPrev, pLast] →
      ∀ m : String, ∀ g : GrowthInfo, (m, g) ∈ calculate_growth_rates fd →
        g.previous_value ≠ 0
        ∧ g.growth_rate = (g.current_value - g.previous_value) / |g.previous_value| * 100
        ∧ resolvedValue fd pLast m = some g.current_value
        ∧ resolvedValue fd pPrev m = some g.previous_value
        ∧ g.period = pPrev ++ (" to ") ++ pLast
        ∧ m ∈ [("revenue"), ("net_income"), ("total_assets"), ("total_equity")])
    ∧ calculate_growth_rates
        { income_statement := [(("2022"), [(("revenue"), some 800000)]),
            (("2023"), [(("revenue"), some 1000000)])]
          balance_sheet := [] } =
      [(("revenue"),
        { period := ("2022 to 2023"), growth_rate := 25
          current_value := 1000000, previous_value := 800000 })] := by
  constructor
  · intro fd ps pPrev pLast hsort m g hmem
    have hrev : (pySortedKeys fd.income_statement).reverse = pLast :: pPrev :: ps.reverse := by
      rw [hsort]
      simp
    unfold calculate_growth_rates at hmem
    simp only [hrev] at hmem
    obtain ⟨m', hm', hmap⟩ := List.mem_filterMap.mp hmem
    obtain ⟨g', hg, hpair⟩ := Option.map_eq_some'.mp hmap
    cases hpair.symm
    have hg : (match resolvedValue fd pLast m, resolvedValue fd pPrev m with
        | some c, some p =>
          if p ≠ 0 then
            some { period := pPrev ++ (" to ") ++ pLast
                   growth_rate := (c - p) / |p| * 100
                   current_value := c
                   previous_value := p }
          else none
        | _, _ => (none : Option GrowthInfo)) = some g := hg
    rcases hc : resolvedValue fd pLast m with _ | c <;>
      rcases hp : resolvedValue fd pPrev m with _ | p <;>
      rw [hc, hp] at hg
    · simp at hg
    · simp at hg
    · simp at hg
    · have hgi : (if p ≠ 0 then
          some { period := pPrev ++ (" to ") ++ pLast
                 growth_rate := (c - p) / |p| * 100
                 current_value := c
                 previous_value := p }
        else (none : Option GrowthInfo)) = some g := hg
      by_cases hp0 : p = 0
      · rw [if_neg (by simp [hp0])] at hgi
        simp at hgi
      · rw [if_pos hp0] at hgi
        have hrec := Option.some.inj hgi
        subst hrec
        exact ⟨hp0, rfl, rfl, rfl, rfl, hm'⟩
  · have hsort : pySortedKeys [(("2022"), [(("revenue"), some (800000 : ℚ))]),
        (("2023"), [(("revenue"), some (1000000 : ℚ))])] = [("2022"), ("2023")] := by
      decide
    have h1 : stmtValue [(("2022"), [(("revenue"), some (800000 : ℚ))]),
        (("2023"), [(("revenue"), some (1000000 : ℚ))])] ("2023") ("revenue")
        = some 1000000 := by decide
    have h2 : stmtValue [(("2022"), [(("revenue"), some (800000 : ℚ))]),
        (("2023"), [(("revenue"), some (1000000 : ℚ))])] ("2022") ("revenue")
        = some 800000 := by decide
    have hn1 : stmtValue [(("2022"), [(("revenue"), some (800000 : ℚ))]),
        (("2023"), [(("revenue"), some (1000000 : ℚ))])] ("2023") ("net_income") = none := by
      decide
    have hn2 : stmtValue [(("2022"), [(("revenue"), some (800000 : ℚ))]),
        (("2023"), [(("revenue"), some (1000000 : ℚ))])] ("2023") ("total_assets") = none := by
      decide
    have hn3 : stmtValue [(("2022"), [(("revenue"), some (800000 : ℚ))]),
        (("2023"), [(("revenue"), some (1000000 : ℚ))])] ("2023") ("total_equity") = none := by
      decide
    have hbs : ∀ p m : String, stmtValue [] p m = none := by
      intro p m
      rfl
    have hrate : ((1000000 : ℚ) - 800000) / |(800000 : ℚ)| * 100 = 25 := by
      rw [abs_of_pos (by norm_num : (0 : ℚ) < 800000)]
      norm_num
    have hstr : ("2022") ++ (" to ") ++ ("2023") = ("2022 to 2023") := rfl
    unfold calculate_growth_rates
    rw [hsort]
    simp only [List.reverse_cons, List.reverse_nil, List.nil_append, List.singleton_append,
      List.filterMap]
    simp only [calculate_metric_growth, h1, h2, hn1, hn2, hn3, hbs, hstr, hrate]
    norm_num

/-- Witness for C7: the growth-rate characterization applied to the
concrete 1000000-vs-800000 statement set. -/
theorem C7_growth_rates_witness :
    pySortedKeys (FinancialData.mk [(("2022"), [(("revenue"), some 800000)]),
        (("2023"), [(("revenue"), some 1000000)])] []).income_statement
      = [] ++ [("2022"), ("2023")]
    ∧ (("revenue"), GrowthInfo.mk ("2022 to 2023") 25 1000000 800000) ∈
        calculate_growth_rates (FinancialData.mk
          [(("2022"), [(("revenue"), some 800000)]),
            (("2023"), [(("revenue"), some 1000000)])] [])
    ∧ ((800000 : ℚ) ≠ 0
        ∧ (25 : ℚ) = ((1000000 : ℚ) - 800000) / |(800000 : ℚ)| * 100
        ∧ resolvedValue (FinancialData.mk [(("2022"), [(("revenue"), some 800000)]),
            (("2023"), [(("revenue"), some 1000000)])] []) ("2023") ("revenue") = some 1000000
        ∧ resolvedValue (FinancialData.mk [(("2022"), [(("revenue"), some 800000)]),
            (("2023"), [(("revenue"), some 1000000)])] []) ("2022") ("revenue")
          = some 800000) := by
  have h1 : pySortedKeys (FinancialData.mk [(("2022"), [(("revenue"), some 800000)]),
        (("2023"), [(("revenue"), some 1000000)])] []).income_statement
      = [] ++ [("2022"), ("2023")] := by decide
  have h2 : (("revenue"), GrowthInfo.mk ("2022 to 2023") 25 1000000 800000) ∈
      calculate_growth_rates (FinancialData.mk
        [(("2022"), [(("revenue"), some 800000)]),
          (("2023"), [(("revenue"), some 1000000)])] []) := by
    rw [C7_growth_rates.2]
    exact List.mem_singleton.mpr rfl
  have h3 := C7_growth_rates.1 _ [] ("2022") ("2023") h1 ("revenue") _ h2
  exact ⟨h1, h2, h3.1, h3.2.1, h3.2.2.1, h3.2.2.2.1⟩

/-! ## Claim C9 -/

/-- The (key, converted value) pairs a statement feeds into the time
series, in iteration order. -/
def flatPairs (st : Statement) (keyf : String → String) : List (String × ℚ) :=
  st.flatMap (fun pd => pd.2.map (fun kv => (keyf kv.1, kv.2.getD 0)))

/-- Spec-side raw occurrence list of a metric in one statement: the
stored nullable values, before any conversion. -/
def occurrencesIn (st : Statement) (keyf : String → String) (m : String) : List PyVal :=
  st.flatMap (fun pd => (pd.2.filter (fun kv => keyf kv.1 == m)).map (fun kv => kv.2))

/-- Spec-side raw occurrence list of a metric across both statements, in
the iteration order of `_extract_time_series`. -/
def occurrences (fd : FinancialData) (m : String) : List PyVal :=
  occurrencesIn fd.income_statement (fun k => k) m
    ++ occurrencesIn fd.balance_sheet (fun k => ("balance_") ++ k) m

theorem any_key_lookup_isSome (ts : List (String × List ℚ)) (k' : String)
    (h : ts.any (fun kv => kv.1 == k') = true) : (List.lookup k' ts).isSome := by
  induction ts with
  | nil => simp at h
  | cons a t ih =>
    obtain ⟨ak, al⟩ := a
    simp only [List.any_cons, Bool.or_eq_true] at h
    by_cases hk : (k' == ak) = true
    · simp [List.lookup, hk]
    · rcases h with h | h
      · exfalso
        have : ak = k' := by simpa using h
        exact hk (by simp [this])
      · simp only [List.lookup, hk]
        exact ih h

theorem any_key_false_lookup (ts : List (String × List ℚ)) (k' : String)
    (h : ts.any (fun kv => kv.1 == k') = false) : List.lookup k' ts = none := by
  induction ts with
  | nil => rfl
  | cons a t ih =>
    obtain ⟨ak, al⟩ := a
    simp only [List.any_cons, Bool.or_eq_false_iff] at h
    have hk : (k' == ak) = false := by
      rcases h with ⟨h1, _⟩
      simp only [beq_eq_false_iff_ne, ne_eq] at h1 ⊢
      exact fun he => h1 (he.symm)
    simp only [List.lookup, hk]
    exact ih h.2

theorem lookup_map_update (ts : List (String × List ℚ)) (k k' : String) (v : ℚ) :
    List.lookup k (ts.map (fun kv => if kv.1 == k' then (kv.1, kv.2 ++ [v]) else kv)) =
      if k = k' then (List.lookup k ts).map (fun l => l ++ [v]) else List.lookup k ts := by
  induction ts with
  | nil => by_cases h : k = k' <;> simp [List.lookup, h]
  | cons a t ih =>
    obtain ⟨ak, al⟩ := a
    by_cases h1 : (ak == k') = true
    · have hmap : (List.map (fun kv : String × List ℚ =>
          if kv.1 == k' then (kv.1, kv.2 ++ [v]) else kv) ((ak, al) :: t)) =
          (ak, al ++ [v]) :: (List.map (fun kv : String × List ℚ =>
            if kv.1 == k' then (kv.1, kv.2 ++ [v]) else kv) t) := by
        simp only [List.map_cons]
        congr 1
        simp [h1]
      rw [hmap]
      have hak : ak = k' := by simpa using h1
      by_cases h2 : (k == ak) = true
      · have hka : k = ak := by simpa using h2
        have hk : k = k' := hka.trans hak
        simp only [List.lookup, h2]
        rw [if_pos hk]
        simp
      · have hb2 : (k == ak) = false := by
          revert h2
          cases (k == ak) <;> simp
        have hka : ¬(k = ak) := by simpa using hb2
        have hk : ¬(k = k') := by rw [← hak]; exact hka
        simp only [List.lookup, hb2]
        rw [ih, if_neg hk]
    · have hb1 : (ak == k') = false := by
        revert h1
        cases (ak == k') <;> simp
      have hmap : (List.map (fun kv : String × List ℚ =>
          if kv.1 == k' then (kv.1, kv.2 ++ [v]) else kv) ((ak, al) :: t)) =
          (ak, al) :: (List.map (fun kv : String × List ℚ =>
            if kv.1 == k' then (kv.1, kv.2 ++ [v]) else kv) t) := by
        simp only [List.map_cons]
        congr 1
        simp [hb1]
      rw [hmap]
      have hak : ¬(ak = k') := by simpa using hb1
      by_cases h2 : (k == ak) = true
      · have hka : k = ak := by simpa using h2
        have hk : ¬(k = k') := by rw [hka]; exact hak
        simp only [List.lookup, h2]
        rw [if_neg hk]
      · have hb2 : (k == ak) = false := by
          revert h2
          cases (k == ak) <;> simp
        simp only [List.lookup, hb2]
        exact ih

theorem lookup_append_absent (ts : List (String × List ℚ)) (k k' : String) (l : List ℚ)
    (h : ts.any (fun kv => kv.1 == k') = false) :
    List.lookup k (ts ++ [(k', l)]) = if k = k' then some l else List.lookup k ts := by
  induction ts with
  | nil =>
    by_cases hk : k = k'
    · simp [List.lookup, hk]
    · have hb : (k == k') = false := beq_eq_false_iff_ne.mpr hk
      simp [List.lookup, hb, hk]
  | cons a t ih =>
    obtain ⟨ak, al⟩ := a
    simp only [List.any_cons, Bool.or_eq_false_iff] at h
    by_cases h2 : (k == ak) = true
    · have hka : k = ak := by simpa using h2
      have hak : ¬(ak = k') := by
        have h1 := h.1
        simpa using h1
      have hk : ¬(k = k') := by rw [hka]; exact hak
      simp only [List.cons_append, List.lookup, h2]
      rw [if_neg hk]
    · have hb2 : (k == ak) = false := by
        revert h2
        cases (k == ak) <;> simp
      simp only [List.cons_append, List.lookup, hb2]
      exact ih h.2

theorem lookup_tsInsert (ts : List (String × List ℚ)) (k k' : String) (v : ℚ) :
    List.lookup k (tsInsert ts k' v) =
      if k = k' then some ((List.lookup k ts).getD [] ++ [v])
      else List.lookup k ts := by
  unfold tsInsert
  by_cases hany : ts.any (fun kv => kv.1 == k') = true
  · rw [if_pos hany, lookup_map_update]
    by_cases hk : k = k'
    · rw [if_pos hk, if_pos hk]
      subst hk
      obtain ⟨l0, hl0⟩ := Option.isSome_iff_exists.mp (any_key_lookup_isSome ts k hany)
      simp [hl0]
    · rw [if_neg hk, if_neg hk]
  · have hf : ts.any (fun kv => kv.1 == k') = false := by
      revert hany
      cases ts.any (fun kv => kv.1 == k') <;> simp
    rw [if_neg hany, lookup_append_absent _ _ _ _ hf]
    by_cases hk : k = k'
    · rw [if_pos hk, if_pos hk]
      subst hk
      rw [any_key_false_lookup ts k hf]
      rfl
    · rw [if_neg hk, if_neg hk]

theorem lookup_foldl_tsInsert (pairs : List (String × ℚ)) :
    ∀ acc : List (String × List ℚ), ∀ m : String,
      List.lookup m (pairs.foldl (fun a kv => tsInsert a kv.1 kv.2) acc) =
        (match List.lookup m acc, (pairs.filter (fun kv => kv.1 == m)).map (fun kv => kv.2) with
         | none, [] => none
         | o, l => some (o.getD [] ++ l)) := by
  induction pairs with
  | nil =>
    intro acc m
    cases ho : List.lookup m acc <;> simp [ho]
  | cons kv rest ih =>
    intro acc m
    obtain ⟨k, v⟩ := kv
    simp only [List.foldl_cons]
    rw [ih (tsInsert acc k v) m, lookup_tsInsert]
    by_cases hk : m = k
    · rw [if_pos hk]
      have hfk : (k == m) = true := by simp [hk]
      have hfilter : ((((k, v) :: rest).filter (fun kv => kv.1 == m)).map (fun kv => kv.2))
          = v :: ((rest.filter (fun kv => kv.1 == m)).map (fun kv => kv.2)) := by
        simp [List.filter_cons, hfk]
      rw [hfilter]
      cases ho : List.lookup m acc <;> simp [ho]
    · rw [if_neg hk]
      have hfk : (k == m) = false := beq_eq_false_iff_ne.mpr (fun he => hk he.symm)
      have hfilter : ((((k, v) :: rest).filter (fun kv => kv.1 == m)).map (fun kv => kv.2))
          = ((rest.filter (fun kv => kv.1 == m)).map (fun kv => kv.2)) := by
        simp [List.filter_cons, hfk]
      rw [hfilter]

theorem tsFoldStatement_eq (st : Statement) (keyf : String → String) :
    ∀ acc : List (String × List ℚ),
      tsFoldStatement st keyf acc =
        (flatPairs st keyf).foldl (fun a kv => tsInsert a kv.1 kv.2) acc := by
  induction st with
  | nil => intro acc; rfl
  | cons pd t ih =>
    intro acc
    simp only [tsFoldStatement, List.foldl_cons, flatPairs, List.flatMap_cons, List.foldl_append]
    rw [List.foldl_map]
    exact ih _

theorem flatPairs_filter (st : Statement) (keyf : String → String) (m : String) :
    ((flatPairs st keyf).filter (fun kv => kv.1 == m)).map (fun kv => kv.2)
      = (occurrencesIn st keyf m).map (fun v => v.getD 0) := by
  induction st with
  | nil => rfl
  | cons pd t ih =>
    have hL : flatPairs (pd :: t) keyf =
        (pd.2.map (fun kv => (keyf kv.1, kv.2.getD 0))) ++ flatPairs t keyf := by
      simp [flatPairs]
    have hR : occurrencesIn (pd :: t) keyf m =
        ((pd.2.filter (fun kv => keyf kv.1 == m)).map (fun kv => kv.2))
          ++ occurrencesIn t keyf m := by
      simp [occurrencesIn]
    rw [hL, hR, List.filter_append, List.map_append, List.map_append, ih]
    congr 1
    rw [List.filter_map, List.map_map, List.map_map]
    rfl

theorem lookup_trendsOf (ts : List (String × List ℚ)) (m : String) (vs : List ℚ)
    (h : List.lookup m ts = some vs) (h2 : 2 ≤ vs.length) :
    List.lookup m (ts.filterMap
        (fun kv => if 2 ≤ kv.2.length then some (kv.1, analyze_trend kv.2) else none))
      = some (analyze_trend vs) := by
  induction ts with
  | nil => simp [List.lookup] at h
  | cons a t ih =>
    obtain ⟨ak, al⟩ := a
    by_cases hk : (m == ak) = true
    · have hval : al = vs := by
        simp only [List.lookup, hk] at h
        exact Option.some.inj h
      subst hval
      have hlen : 2 ≤ al.length := h2
      have hfm : (((ak, al) :: t).filterMap
          (fun kv => if 2 ≤ kv.2.length then some (kv.1, analyze_trend kv.2) else none))
          = (ak, analyze_trend al) :: (t.filterMap
            (fun kv => if 2 ≤ kv.2.length then some (kv.1, analyze_trend kv.2) else none)) := by
        simp only [List.filterMap_cons]
        rw [if_pos hlen]
      rw [hfm]
      simp [List.lookup, hk]
    · have hb : (m == ak) = false := by
        revert hk
        cases (m == ak) <;> simp
      have ht : List.lookup m t = some vs := by
        simp only [List.lookup, hb] at h
        exact h
      by_cases hlen : 2 ≤ al.length
      · have hfm : (((ak, al) :: t).filterMap
            (fun kv => if 2 ≤ kv.2.length then some (kv.1, analyze_trend kv.2) else none))
            = (ak, analyze_trend al) :: (t.filterMap
              (fun kv => if 2 ≤ kv.2.length then some (kv.1, analyze_trend kv.2) else none)) := by
          simp only [List.filterMap_cons]
          rw [if_pos hlen]
        rw [hfm]
        simp only [List.lookup, hb]
        exact ih ht
      · have hfm : (((ak, al) :: t).filterMap
            (fun kv => if 2 ≤ kv.2.length then some (kv.1, analyze_trend kv.2) else none))
            = (t.filterMap
              (fun kv => if 2 ≤ kv.2.length then some (kv.1, analyze_trend kv.2) else none)) := by
          simp only [List.filterMap_cons]
          rw [if_neg hlen]
        rw [hfm]
        exact ih ht

theorem analyze_trend_zero_head (l : List ℚ) (h : l ≠ []) :
    analyze_trend (0 :: l) = TrendResult.full ("stable") 0 (0 :: l) := by
  have hpos : 0 < l.length := List.length_pos.mpr h
  have hlen : ¬((0 :: l).length < 2) := by
    simp only [List.length_cons]
    omega
  simp only [analyze_trend, hlen, if_false, List.headI]
  norm_num

/-- C9: `_extract_time_series` converts every null line-item value to 0.0
in the metric's series (the series is the raw occurrence list with nulls
replaced by 0), so a metric whose earliest recorded value is null is
trended from a first value of 0.0, forcing percentage change 0 and
direction `stable` regardless of later values. -/
theorem C9_null_converted_to_zero :
    (∀ fd : FinancialData, ∀ m : String,
      List.lookup m (extract_time_series fd) =
        (match occurrences fd m with
         | [] => none
         | l => some (l.map (fun v => v.getD 0))))
    ∧ (∀ fd : FinancialData, ∀ m : String, ∀ rest : List PyVal,
      occurrences fd m = none :: rest → rest ≠ [] →
      List.lookup m (identify_trends fd) =
        some (TrendResult.full ("stable") 0 (0 :: rest.map (fun v => v.getD 0)))) := by
  have hmain : ∀ fd : FinancialData, ∀ m : String,
      List.lookup m (extract_time_series fd) =
        (match occurrences fd m with
         | [] => none
         | l => some (l.map (fun v => v.getD 0))) := by
    intro fd m
    have he : extract_time_series fd =
        ((flatPairs fd.income_statement (fun k => k)
          ++ flatPairs fd.balance_sheet (fun k => ("balance_") ++ k)).foldl
            (fun a kv => tsInsert a kv.1 kv.2) []) := by
      unfold extract_time_series
      rw [tsFoldStatement_eq, tsFoldStatement_eq, List.foldl_append]
    have hfilter : (((flatPairs fd.income_statement (fun k => k)
        ++ flatPairs fd.balance_sheet (fun k => ("balance_") ++ k)).filter
          (fun kv => kv.1 == m)).map (fun kv => kv.2))
        = (occurrences fd m).map (fun v => v.getD 0) := by
      rw [List.filter_append, List.map_append, flatPairs_filter, flatPairs_filter]
      unfold occurrences
      rw [List.map_append]
    rw [he, lookup_foldl_tsInsert, hfilter]
    cases ho : occurrences fd m with
    | nil => simp [List.lookup]
    | cons a l => simp [List.lookup]
  refine ⟨hmain, ?_⟩
  intro fd m rest hocc hne
  have h1 := hmain fd m
  rw [hocc] at h1
  simp only [List.map_cons, Option.getD_none] at h1
  have hlen : 2 ≤ (0 :: rest.map (fun v => v.getD 0)).length := by
    have := List.length_pos.mpr hne
    simp only [List.length_cons, List.length_map]
    omega
  have h2 := lookup_trendsOf (extract_time_series fd) m
    ((0 : ℚ) :: rest.map (fun v => v.getD 0)) h1 hlen
  have h3 : List.lookup m (identify_trends fd) =
      some (analyze_trend ((0 : ℚ) :: rest.map (fun v => v.getD 0))) := h2
  rw [h3, analyze_trend_zero_head _ (by simp [hne])]

/-- Witness for C9: the null-first-value consequence applied to a
concrete statement set whose earliest `revenue` is null. -/
theorem C9_null_converted_to_zero_witness :
    occurrences (FinancialData.mk [(("2022"), [(("revenue"), none)]),
        (("2023"), [(("revenue"), some 5)])] []) ("revenue") = none :: [some 5]
    ∧ ([some (5 : ℚ)] : List PyVal) ≠ []
    ∧ List.lookup ("revenue") (identify_trends (FinancialData.mk
        [(("2022"), [(("revenue"), none)]), (("2023"), [(("revenue"), some 5)])] [])) =
      some (TrendResult.full ("stable") 0
        (0 :: ([some (5 : ℚ)] : List PyVal).map (fun v => v.getD 0))) := by
  have h1 : occurrences (FinancialData.mk [(("2022"), [(("revenue"), none)]),
      (("2023"), [(("revenue"), some 5)])] []) ("revenue") = none :: [some 5] := by
    decide
  have h2 : ([some (5 : ℚ)] : List PyVal) ≠ [] := by simp
  exact ⟨h1, h2, C9_null_converted_to_zero.2 _ ("revenue") [some 5] h1 h2⟩
